import Mathlib

/-!
# gst-droid: photography property adapter and simple-camera pipeline controller

A shallow embedding of

* `gst/droidcamsrc/gstdroidcamsrcphotography.c` (property adapter of `droidcamsrc`), and
* `tools/simple-camera/videoplayer.cpp` (the `VideoPlayer` pipeline controller),

followed by theorems about the embedded functions.

Conventions of the embedding.

* C functions taking `GstDroidCamSrc * src` become functions that take the adapter state and
  return it again next to their C result, so that "the state is left unchanged" is a statement
  about the returned state.
* A getter `gboolean get (src, T * out)` returns `Option T`: `none` is `FALSE` (nothing stored
  through `out`), `some v` is `TRUE` after storing `v`.
* `gfloat` values are only stored and copied by this code (the constants `0.0` and `1.0`), never
  computed with; they are carried as rationals.
* Enumerations of the GStreamer photography header are `gint` values; the named constants of
  that header are taken as a parameter (`GstPhotographyEnums`).
-/

namespace GstDroid

/-! ## Data model of the property adapter -/

/-- A `gfloat`; only stored and copied by this code. -/
abbrev gfloat := ℚ

/-- Named constants of the GStreamer photography header (`gst/interfaces/photography.h`) that
`gstdroidcamsrcphotography.c` refers to. The header is not part of the repository, so the
constants are a parameter of the embedding. -/
structure GstPhotographyEnums where
  GST_PHOTOGRAPHY_WB_MODE_AUTO : Int
  GST_PHOTOGRAPHY_COLOR_TONE_MODE_NORMAL : Int
  GST_PHOTOGRAPHY_SCENE_MODE_AUTO : Int
  GST_PHOTOGRAPHY_FLASH_MODE_AUTO : Int
  GST_PHOTOGRAPHY_FLICKER_REDUCTION_OFF : Int
  GST_PHOTOGRAPHY_FOCUS_MODE_CONTINUOUS_NORMAL : Int
  GST_PHOTOGRAPHY_EXPOSURE_MODE_AUTO : Int
  MAX_WHITE_POINT_VALUES : Nat
  deriving DecidableEq, Repr

/-- The constants as GStreamer 1.x defines them; used for concrete evaluations only. -/
def gst_1_x_enums : GstPhotographyEnums :=
  { GST_PHOTOGRAPHY_WB_MODE_AUTO := 0
    GST_PHOTOGRAPHY_COLOR_TONE_MODE_NORMAL := 0
    GST_PHOTOGRAPHY_SCENE_MODE_AUTO := 6
    GST_PHOTOGRAPHY_FLASH_MODE_AUTO := 0
    GST_PHOTOGRAPHY_FLICKER_REDUCTION_OFF := 0
    GST_PHOTOGRAPHY_FOCUS_MODE_CONTINUOUS_NORMAL := 6
    GST_PHOTOGRAPHY_EXPOSURE_MODE_AUTO := 0
    MAX_WHITE_POINT_VALUES := 4 }

/-- The structure `GstPhotographySettings` of the photography header: the settings snapshot. -/
structure GstPhotographySettings where
  wb_mode : Int
  tone_mode : Int
  scene_mode : Int
  flash_mode : Int
  exposure_time : Nat
  aperture : Nat
  ev_compensation : gfloat
  iso_speed : Nat
  zoom : gfloat
  flicker_mode : Int
  focus_mode : Int
  noise_reduction : Int
  exposure_mode : Int
  color_temperature : Nat
  white_point : List Nat
  analog_gain : gfloat
  lens_focus : gfloat
  min_exposure_time : Nat
  max_exposure_time : Nat
  deriving DecidableEq

/-- The structure `_GstDroidCamSrcPhotography`: it holds the settings snapshot and nothing
else (in particular no pending capture request). -/
structure GstDroidCamSrcPhotography where
  settings : GstPhotographySettings
  deriving DecidableEq

/-- A line of the GStreamer debug log written by this file (`GST_WARNING`). -/
inductive LogLine where
  | failed_to_load_configuration_file (message : String)
  | failed_to_load (property : String) (message : String)
  | failed_to_load_key (property : String) (key : String) (message : String)
  deriving DecidableEq, Repr

/-- The part of `GstDroidCamSrc` this file touches: the pointer `src->photo` (`none` is `NULL`)
and, as a ghost field, the warnings logged so far. -/
structure GstDroidCamSrc where
  photo : Option GstDroidCamSrcPhotography
  warnings : List LogLine
  deriving DecidableEq

/-- The property identifiers `PROP_*` of `gstdroidcamsrc.h` that the `switch` statements of this
file name (C case labels are pairwise distinct), and `other` for every further `guint`. -/
inductive PropId where
  | PROP_WB_MODE
  | PROP_COLOR_TONE
  | PROP_SCENE_MODE
  | PROP_FLASH_MODE
  | PROP_FLICKER_MODE
  | PROP_FOCUS_MODE
  | PROP_EXPOSURE_MODE
  | PROP_NOISE_REDUCTION
  | PROP_ZOOM
  | PROP_EV_COMP
  | PROP_ANALOG_GAIN
  | PROP_LENS_FOCUS
  | PROP_APERTURE
  | PROP_ISO_SPEED
  | PROP_COLOR_TEMPERATURE
  | PROP_MIN_EXPOSURE_TIME
  | PROP_MAX_EXPOSURE_TIME
  | PROP_EXPOSURE_TIME
  | PROP_CAPABILITIES
  | PROP_IMAGE_CAPTURE_SUPPORTED_CAPS
  | PROP_IMAGE_PREVIEW_SUPPORTED_CAPS
  | PROP_WHITE_POINT
  | other (n : Nat)
  deriving DecidableEq, Repr

/-- The content of a `GValue`, as far as this file stores into one. -/
inductive GValue where
  | enum (v : Int)
  | float (v : gfloat)
  | uint (v : Nat)
  | ulong (v : Nat)
  deriving DecidableEq

/-- The call `g_value_set_enum (value, v)`; GObject hands `get_property` a value already
initialised to the type of the property. -/
def g_value_set_enum (_value : GValue) (v : Int) : GValue := GValue.enum v

/-- The call `g_value_set_float (value, v)`. -/
def g_value_set_float (_value : GValue) (v : gfloat) : GValue := GValue.float v

/-- The call `g_value_set_uint (value, v)`. -/
def g_value_set_uint (_value : GValue) (v : Nat) : GValue := GValue.uint v

/-- The call `g_value_set_ulong (value, v)`. -/
def g_value_set_ulong (_value : GValue) (v : Nat) : GValue := GValue.ulong v

/-- A parsed key file: groups, each a list of key/value entries in file order. The value `none`
stands for a key whose value `g_key_file_get_value` does not return. -/
abbrev GKeyFile := List (String × List (String × Option String))

/-! ## The typed getters and setters (`gstdroidcamsrcphotography.c`, lines 502-721) -/

/-- Source: `gst_droidcamsrc_get_ev_compensation`, body `// TODO: return FALSE;`. -/
def gst_droidcamsrc_get_ev_compensation (src : GstDroidCamSrc) :
    Option gfloat × GstDroidCamSrc := (none, src)

/-- Source: `gst_droidcamsrc_get_iso_speed`. -/
def gst_droidcamsrc_get_iso_speed (photo : GstDroidCamSrc) :
    Option Nat × GstDroidCamSrc := (none, photo)

/-- Source: `gst_droidcamsrc_get_aperture`. -/
def gst_droidcamsrc_get_aperture (src : GstDroidCamSrc) :
    Option Nat × GstDroidCamSrc := (none, src)

/-- Source: `gst_droidcamsrc_get_exposure`. -/
def gst_droidcamsrc_get_exposure (src : GstDroidCamSrc) :
    Option Nat × GstDroidCamSrc := (none, src)

/-- Source: `gst_droidcamsrc_get_white_balance_mode`. -/
def gst_droidcamsrc_get_white_balance_mode (src : GstDroidCamSrc) :
    Option Int × GstDroidCamSrc := (none, src)

/-- Source: `gst_droidcamsrc_get_color_tone_mode`. -/
def gst_droidcamsrc_get_color_tone_mode (src : GstDroidCamSrc) :
    Option Int × GstDroidCamSrc := (none, src)

/-- Source: `gst_droidcamsrc_get_scene_mode`. -/
def gst_droidcamsrc_get_scene_mode (src : GstDroidCamSrc) :
    Option Int × GstDroidCamSrc := (none, src)

/-- Source: `gst_droidcamsrc_get_flash_mode`. -/
def gst_droidcamsrc_get_flash_mode (src : GstDroidCamSrc) :
    Option Int × GstDroidCamSrc := (none, src)

/-- Source: `gst_droidcamsrc_get_zoom`. -/
def gst_droidcamsrc_get_zoom (src : GstDroidCamSrc) :
    Option gfloat × GstDroidCamSrc := (none, src)

/-- Source: `gst_droidcamsrc_get_flicker_mode`. -/
def gst_droidcamsrc_get_flicker_mode (photo : GstDroidCamSrc) :
    Option Int × GstDroidCamSrc := (none, photo)

/-- Source: `gst_droidcamsrc_get_focus_mode`. -/
def gst_droidcamsrc_get_focus_mode (src : GstDroidCamSrc) :
    Option Int × GstDroidCamSrc := (none, src)

/-- Source: `gst_droidcamsrc_set_ev_compensation`, body `// TODO: return FALSE;`. -/
def gst_droidcamsrc_set_ev_compensation (src : GstDroidCamSrc) (_ev_comp : gfloat) :
    Bool × GstDroidCamSrc := (false, src)

/-- Source: `gst_droidcamsrc_set_iso_speed`. -/
def gst_droidcamsrc_set_iso_speed (src : GstDroidCamSrc) (_iso_speed : Nat) :
    Bool × GstDroidCamSrc := (false, src)

/-- Source: `gst_droidcamsrc_set_aperture`. -/
def gst_droidcamsrc_set_aperture (src : GstDroidCamSrc) (_aperture : Nat) :
    Bool × GstDroidCamSrc := (false, src)

/-- Source: `gst_droidcamsrc_set_exposure`. -/
def gst_droidcamsrc_set_exposure (src : GstDroidCamSrc) (_exposure : Nat) :
    Bool × GstDroidCamSrc := (false, src)

/-- Source: `gst_droidcamsrc_set_white_balance_mode`. -/
def gst_droidcamsrc_set_white_balance_mode (src : GstDroidCamSrc) (_wb_mode : Int) :
    Bool × GstDroidCamSrc := (false, src)

/-- Source: `gst_droidcamsrc_set_color_tone_mode`. -/
def gst_droidcamsrc_set_color_tone_mode (src : GstDroidCamSrc) (_tone_mode : Int) :
    Bool × GstDroidCamSrc := (false, src)

/-- Source: `gst_droidcamsrc_set_scene_mode`. -/
def gst_droidcamsrc_set_scene_mode (src : GstDroidCamSrc) (_scene_mode : Int) :
    Bool × GstDroidCamSrc := (false, src)

/-- Source: `gst_droidcamsrc_set_flash_mode`. -/
def gst_droidcamsrc_set_flash_mode (src : GstDroidCamSrc) (_flash_mode : Int) :
    Bool × GstDroidCamSrc := (false, src)

/-- Source: `gst_droidcamsrc_set_zoom`. -/
def gst_droidcamsrc_set_zoom (src : GstDroidCamSrc) (_zoom : gfloat) :
    Bool × GstDroidCamSrc := (false, src)

/-- Source: `gst_droidcamsrc_set_flicker_mode`. -/
def gst_droidcamsrc_set_flicker_mode (photo : GstDroidCamSrc) (_flicker_mode : Int) :
    Bool × GstDroidCamSrc := (false, photo)

/-- Source: `gst_droidcamsrc_set_focus_mode`. -/
def gst_droidcamsrc_set_focus_mode (src : GstDroidCamSrc) (_focus_mode : Int) :
    Bool × GstDroidCamSrc := (false, src)

/-- Source: `gst_droidcamsrc_get_capabilities`, body `// TODO: return FALSE;` (that is `0`). -/
def gst_droidcamsrc_get_capabilities (src : GstDroidCamSrc) : Nat × GstDroidCamSrc := (0, src)

/-- Source: `gst_droidcamsrc_prepare_for_capture (src, func, capture_caps, user_data)`, body
`// TODO: return FALSE;`. The callback, the caps and the user data are opaque handles. -/
def gst_droidcamsrc_prepare_for_capture (src : GstDroidCamSrc) (_func : Nat)
    (_capture_caps : Nat) (_user_data : Nat) : Bool × GstDroidCamSrc := (false, src)

/-- Source: `gst_droidcamsrc_set_autofocus`, empty body. -/
def gst_droidcamsrc_set_autofocus (src : GstDroidCamSrc) (_on : Bool) : GstDroidCamSrc := src

/-- Source: `gst_droidcamsrc_set_config`. -/
def gst_droidcamsrc_set_config (src : GstDroidCamSrc) (_config : GstPhotographySettings) :
    Bool × GstDroidCamSrc := (false, src)

/-- Source: `gst_droidcamsrc_get_config`; `none` is `FALSE` with `*config` not written. -/
def gst_droidcamsrc_get_config (src : GstDroidCamSrc) :
    Option GstPhotographySettings × GstDroidCamSrc := (none, src)

/-- Source: `gst_droidcamsrc_get_noise_reduction`. -/
def gst_droidcamsrc_get_noise_reduction (src : GstDroidCamSrc) :
    Option Int × GstDroidCamSrc := (none, src)

/-- Source: `gst_droidcamsrc_set_noise_reduction`. -/
def gst_droidcamsrc_set_noise_reduction (src : GstDroidCamSrc) (_noise_reduction : Int) :
    Bool × GstDroidCamSrc := (false, src)

/-! ## The interface functions generated by `PHOTO_IFACE_FUNC` (lines 78-136) -/

/-- The cast `GST_DROIDCAMSRC (photo)`: the interface object is the element itself. -/
def GST_DROIDCAMSRC (photo : GstDroidCamSrc) : GstDroidCamSrc := photo

/-- Source: `PHOTO_IFACE_FUNC (ev_compensation, ..)`, the generated `gst_droidcamsrc_photography_get_ev_compensation`. -/
def gst_droidcamsrc_photography_get_ev_compensation (photo : GstDroidCamSrc) :
    Option gfloat × GstDroidCamSrc :=
  gst_droidcamsrc_get_ev_compensation (GST_DROIDCAMSRC photo)

/-- Source: `PHOTO_IFACE_FUNC (ev_compensation, ..)`, the generated `gst_droidcamsrc_photography_set_ev_compensation`. -/
def gst_droidcamsrc_photography_set_ev_compensation (photo : GstDroidCamSrc) (val : gfloat) :
    Bool × GstDroidCamSrc :=
  gst_droidcamsrc_set_ev_compensation (GST_DROIDCAMSRC photo) val

/-- Source: `PHOTO_IFACE_FUNC (iso_speed, ..)`, the generated `gst_droidcamsrc_photography_get_iso_speed`. -/
def gst_droidcamsrc_photography_get_iso_speed (photo : GstDroidCamSrc) :
    Option Nat × GstDroidCamSrc :=
  gst_droidcamsrc_get_iso_speed (GST_DROIDCAMSRC photo)

/-- Source: `PHOTO_IFACE_FUNC (iso_speed, ..)`, the generated `gst_droidcamsrc_photography_set_iso_speed`. -/
def gst_droidcamsrc_photography_set_iso_speed (photo : GstDroidCamSrc) (val : Nat) :
    Bool × GstDroidCamSrc :=
  gst_droidcamsrc_set_iso_speed (GST_DROIDCAMSRC photo) val

/-- Source: `PHOTO_IFACE_FUNC (aperture, ..)`, the generated `gst_droidcamsrc_photography_get_aperture`. -/
def gst_droidcamsrc_photography_get_aperture (photo : GstDroidCamSrc) :
    Option Nat × GstDroidCamSrc :=
  gst_droidcamsrc_get_aperture (GST_DROIDCAMSRC photo)

/-- Source: `PHOTO_IFACE_FUNC (aperture, ..)`, the generated `gst_droidcamsrc_photography_set_aperture`. -/
def gst_droidcamsrc_photography_set_aperture (photo : GstDroidCamSrc) (val : Nat) :
    Bool × GstDroidCamSrc :=
  gst_droidcamsrc_set_aperture (GST_DROIDCAMSRC photo) val

/-- Source: `PHOTO_IFACE_FUNC (exposure, ..)`, the generated `gst_droidcamsrc_photography_get_exposure`. -/
def gst_droidcamsrc_photography_get_exposure (photo : GstDroidCamSrc) :
    Option Nat × GstDroidCamSrc :=
  gst_droidcamsrc_get_exposure (GST_DROIDCAMSRC photo)

/-- Source: `PHOTO_IFACE_FUNC (exposure, ..)`, the generated `gst_droidcamsrc_photography_set_exposure`. -/
def gst_droidcamsrc_photography_set_exposure (photo : GstDroidCamSrc) (val : Nat) :
    Bool × GstDroidCamSrc :=
  gst_droidcamsrc_set_exposure (GST_DROIDCAMSRC photo) val

/-- Source: `PHOTO_IFACE_FUNC (white_balance_mode, ..)`, the generated `gst_droidcamsrc_photography_get_white_balance_mode`. -/
def gst_droidcamsrc_photography_get_white_balance_mode (photo : GstDroidCamSrc) :
    Option Int × GstDroidCamSrc :=
  gst_droidcamsrc_get_white_balance_mode (GST_DROIDCAMSRC photo)

/-- Source: `PHOTO_IFACE_FUNC (white_balance_mode, ..)`, the generated `gst_droidcamsrc_photography_set_white_balance_mode`. -/
def gst_droidcamsrc_photography_set_white_balance_mode (photo : GstDroidCamSrc) (val : Int) :
    Bool × GstDroidCamSrc :=
  gst_droidcamsrc_set_white_balance_mode (GST_DROIDCAMSRC photo) val

/-- Source: `PHOTO_IFACE_FUNC (color_tone_mode, ..)`, the generated `gst_droidcamsrc_photography_get_color_tone_mode`. -/
def gst_droidcamsrc_photography_get_color_tone_mode (photo : GstDroidCamSrc) :
    Option Int × GstDroidCamSrc :=
  gst_droidcamsrc_get_color_tone_mode (GST_DROIDCAMSRC photo)

/-- Source: `PHOTO_IFACE_FUNC (color_tone_mode, ..)`, the generated `gst_droidcamsrc_photography_set_color_tone_mode`. -/
def gst_droidcamsrc_photography_set_color_tone_mode (photo : GstDroidCamSrc) (val : Int) :
    Bool × GstDroidCamSrc :=
  gst_droidcamsrc_set_color_tone_mode (GST_DROIDCAMSRC photo) val

/-- Source: `PHOTO_IFACE_FUNC (scene_mode, ..)`, the generated `gst_droidcamsrc_photography_get_scene_mode`. -/
def gst_droidcamsrc_photography_get_scene_mode (photo : GstDroidCamSrc) :
    Option Int × GstDroidCamSrc :=
  gst_droidcamsrc_get_scene_mode (GST_DROIDCAMSRC photo)

/-- Source: `PHOTO_IFACE_FUNC (scene_mode, ..)`, the generated `gst_droidcamsrc_photography_set_scene_mode`. -/
def gst_droidcamsrc_photography_set_scene_mode (photo : GstDroidCamSrc) (val : Int) :
    Bool × GstDroidCamSrc :=
  gst_droidcamsrc_set_scene_mode (GST_DROIDCAMSRC photo) val

/-- Source: `PHOTO_IFACE_FUNC (flash_mode, ..)`, the generated `gst_droidcamsrc_photography_get_flash_mode`. -/
def gst_droidcamsrc_photography_get_flash_mode (photo : GstDroidCamSrc) :
    Option Int × GstDroidCamSrc :=
  gst_droidcamsrc_get_flash_mode (GST_DROIDCAMSRC photo)

/-- Source: `PHOTO_IFACE_FUNC (flash_mode, ..)`, the generated `gst_droidcamsrc_photography_set_flash_mode`. -/
def gst_droidcamsrc_photography_set_flash_mode (photo : GstDroidCamSrc) (val : Int) :
    Bool × GstDroidCamSrc :=
  gst_droidcamsrc_set_flash_mode (GST_DROIDCAMSRC photo) val

/-- Source: `PHOTO_IFACE_FUNC (zoom, ..)`, the generated `gst_droidcamsrc_photography_get_zoom`. -/
def gst_droidcamsrc_photography_get_zoom (photo : GstDroidCamSrc) :
    Option gfloat × GstDroidCamSrc :=
  gst_droidcamsrc_get_zoom (GST_DROIDCAMSRC photo)

/-- Source: `PHOTO_IFACE_FUNC (zoom, ..)`, the generated `gst_droidcamsrc_photography_set_zoom`. -/
def gst_droidcamsrc_photography_set_zoom (photo : GstDroidCamSrc) (val : gfloat) :
    Bool × GstDroidCamSrc :=
  gst_droidcamsrc_set_zoom (GST_DROIDCAMSRC photo) val

/-- Source: `PHOTO_IFACE_FUNC (flicker_mode, ..)`, the generated `gst_droidcamsrc_photography_get_flicker_mode`. -/
def gst_droidcamsrc_photography_get_flicker_mode (photo : GstDroidCamSrc) :
    Option Int × GstDroidCamSrc :=
  gst_droidcamsrc_get_flicker_mode (GST_DROIDCAMSRC photo)

/-- Source: `PHOTO_IFACE_FUNC (flicker_mode, ..)`, the generated `gst_droidcamsrc_photography_set_flicker_mode`. -/
def gst_droidcamsrc_photography_set_flicker_mode (photo : GstDroidCamSrc) (val : Int) :
    Bool × GstDroidCamSrc :=
  gst_droidcamsrc_set_flicker_mode (GST_DROIDCAMSRC photo) val

/-- Source: `PHOTO_IFACE_FUNC (focus_mode, ..)`, the generated `gst_droidcamsrc_photography_get_focus_mode`. -/
def gst_droidcamsrc_photography_get_focus_mode (photo : GstDroidCamSrc) :
    Option Int × GstDroidCamSrc :=
  gst_droidcamsrc_get_focus_mode (GST_DROIDCAMSRC photo)

/-- Source: `PHOTO_IFACE_FUNC (focus_mode, ..)`, the generated `gst_droidcamsrc_photography_set_focus_mode`. -/
def gst_droidcamsrc_photography_set_focus_mode (photo : GstDroidCamSrc) (val : Int) :
    Bool × GstDroidCamSrc :=
  gst_droidcamsrc_set_focus_mode (GST_DROIDCAMSRC photo) val

/-- Source: `PHOTO_IFACE_FUNC (noise_reduction, ..)`, the generated `gst_droidcamsrc_photography_get_noise_reduction`. -/
def gst_droidcamsrc_photography_get_noise_reduction (photo : GstDroidCamSrc) :
    Option Int × GstDroidCamSrc :=
  gst_droidcamsrc_get_noise_reduction (GST_DROIDCAMSRC photo)

/-- Source: `PHOTO_IFACE_FUNC (noise_reduction, ..)`, the generated `gst_droidcamsrc_photography_set_noise_reduction`. -/
def gst_droidcamsrc_photography_set_noise_reduction (photo : GstDroidCamSrc) (val : Int) :
    Bool × GstDroidCamSrc :=
  gst_droidcamsrc_set_noise_reduction (GST_DROIDCAMSRC photo) val

/-- Source: `PHOTO_IFACE_FUNC (config, ..)`, the generated `gst_droidcamsrc_photography_get_config`. -/
def gst_droidcamsrc_photography_get_config (photo : GstDroidCamSrc) :
    Option GstPhotographySettings × GstDroidCamSrc :=
  gst_droidcamsrc_get_config (GST_DROIDCAMSRC photo)

/-- Source: `PHOTO_IFACE_FUNC (config, ..)`, the generated `gst_droidcamsrc_photography_set_config`. -/
def gst_droidcamsrc_photography_set_config (photo : GstDroidCamSrc) (val : GstPhotographySettings) :
    Bool × GstDroidCamSrc :=
  gst_droidcamsrc_set_config (GST_DROIDCAMSRC photo) val

/-- Source: `gst_droidcamsrc_photography_get_capabilities`. -/
def gst_droidcamsrc_photography_get_capabilities (photo : GstDroidCamSrc) :
    Nat × GstDroidCamSrc :=
  gst_droidcamsrc_get_capabilities (GST_DROIDCAMSRC photo)

/-- Source: `gst_droidcamsrc_photography_prepare_for_capture`. -/
def gst_droidcamsrc_photography_prepare_for_capture (photo : GstDroidCamSrc) (func : Nat)
    (capture_caps : Nat) (user_data : Nat) : Bool × GstDroidCamSrc :=
  gst_droidcamsrc_prepare_for_capture (GST_DROIDCAMSRC photo) func capture_caps user_data

/-- Source: `gst_droidcamsrc_photography_set_autofocus`. -/
def gst_droidcamsrc_photography_set_autofocus (photo : GstDroidCamSrc) (on_ : Bool) :
    GstDroidCamSrc :=
  gst_droidcamsrc_set_autofocus (GST_DROIDCAMSRC photo) on_

/-! ## Property dispatch (lines 187-401) -/

/-- What `gst_droidcamsrc_photography_get_property` leaves behind: its return value, the content
of `*value`, and the adapter state. -/
structure GetPropertyResult where
  ret : Bool
  value : GValue
  src : GstDroidCamSrc
  deriving DecidableEq

/-- Source: `gst_droidcamsrc_photography_get_property (src, prop_id, value, pspec)`. The argument
`value` is the content of `*value` on entry. A case that goes through a typed getter stores
into `*value` only inside `if (getter (src, &x))`; a `// TODO:` case reads the field of
`src->photo->settings`, and the result is `none` when that dereferences `src->photo == NULL`. -/
def gst_droidcamsrc_photography_get_property (src : GstDroidCamSrc) (prop_id : PropId)
    (value : GValue) : Option GetPropertyResult :=
  match prop_id with
  | .PROP_WB_MODE =>
    match gst_droidcamsrc_get_white_balance_mode src with
    | (some x, src1) => some ⟨true, g_value_set_enum value x, src1⟩
    | (none, src1) => some ⟨true, value, src1⟩
  | .PROP_COLOR_TONE =>
    match gst_droidcamsrc_get_color_tone_mode src with
    | (some x, src1) => some ⟨true, g_value_set_enum value x, src1⟩
    | (none, src1) => some ⟨true, value, src1⟩
  | .PROP_SCENE_MODE =>
    match gst_droidcamsrc_get_scene_mode src with
    | (some x, src1) => some ⟨true, g_value_set_enum value x, src1⟩
    | (none, src1) => some ⟨true, value, src1⟩
  | .PROP_FLASH_MODE =>
    match gst_droidcamsrc_get_flash_mode src with
    | (some x, src1) => some ⟨true, g_value_set_enum value x, src1⟩
    | (none, src1) => some ⟨true, value, src1⟩
  | .PROP_FLICKER_MODE =>
    match gst_droidcamsrc_get_flicker_mode src with
    | (some x, src1) => some ⟨true, g_value_set_enum value x, src1⟩
    | (none, src1) => some ⟨true, value, src1⟩
  | .PROP_FOCUS_MODE =>
    match gst_droidcamsrc_get_focus_mode src with
    | (some x, src1) => some ⟨true, g_value_set_enum value x, src1⟩
    | (none, src1) => some ⟨true, value, src1⟩
  | .PROP_NOISE_REDUCTION =>
    match gst_droidcamsrc_get_noise_reduction src with
    | (some x, src1) => some ⟨true, g_value_set_enum value x, src1⟩
    | (none, src1) => some ⟨true, value, src1⟩
  | .PROP_EXPOSURE_MODE =>
    match src.photo with
    | some photo => some ⟨true, g_value_set_enum value photo.settings.exposure_mode, src⟩
    | none => none
  | .PROP_ZOOM =>
    match gst_droidcamsrc_get_zoom src with
    | (some x, src1) => some ⟨true, g_value_set_float value x, src1⟩
    | (none, src1) => some ⟨true, value, src1⟩
  | .PROP_EV_COMP =>
    match gst_droidcamsrc_get_ev_compensation src with
    | (some x, src1) => some ⟨true, g_value_set_float value x, src1⟩
    | (none, src1) => some ⟨true, value, src1⟩
  | .PROP_ANALOG_GAIN =>
    match src.photo with
    | some photo => some ⟨true, g_value_set_float value photo.settings.analog_gain, src⟩
    | none => none
  | .PROP_LENS_FOCUS =>
    match src.photo with
    | some photo => some ⟨true, g_value_set_float value photo.settings.lens_focus, src⟩
    | none => none
  | .PROP_APERTURE =>
    match gst_droidcamsrc_get_aperture src with
    | (some x, src1) => some ⟨true, g_value_set_uint value x, src1⟩
    | (none, src1) => some ⟨true, value, src1⟩
  | .PROP_ISO_SPEED =>
    match gst_droidcamsrc_get_iso_speed src with
    | (some x, src1) => some ⟨true, g_value_set_uint value x, src1⟩
    | (none, src1) => some ⟨true, value, src1⟩
  | .PROP_COLOR_TEMPERATURE =>
    match src.photo with
    | some photo => some ⟨true, g_value_set_uint value photo.settings.color_temperature, src⟩
    | none => none
  | .PROP_MIN_EXPOSURE_TIME =>
    match src.photo with
    | some photo => some ⟨true, g_value_set_uint value photo.settings.min_exposure_time, src⟩
    | none => none
  | .PROP_MAX_EXPOSURE_TIME =>
    match src.photo with
    | some photo => some ⟨true, g_value_set_uint value photo.settings.max_exposure_time, src⟩
    | none => none
  | .PROP_EXPOSURE_TIME =>
    match gst_droidcamsrc_get_exposure src with
    | (some x, src1) => some ⟨true, g_value_set_uint value x, src1⟩
    | (none, src1) => some ⟨true, value, src1⟩
  | .PROP_CAPABILITIES =>
    match gst_droidcamsrc_get_capabilities src with
    | (capabilities, src1) => some ⟨true, g_value_set_ulong value capabilities, src1⟩
  | .PROP_IMAGE_CAPTURE_SUPPORTED_CAPS => some ⟨true, value, src⟩
  | .PROP_IMAGE_PREVIEW_SUPPORTED_CAPS => some ⟨true, value, src⟩
  | .PROP_WHITE_POINT => some ⟨true, value, src⟩
  | .other _ => some ⟨false, value, src⟩

/-- Source: `gst_droidcamsrc_photography_set_property (src, prop_id, value, pspec)`: the body is
`// TODO:` followed by a `switch` that returns `TRUE` for the listed identifiers and `FALSE`
otherwise; neither `value` nor `src` is used. -/
def gst_droidcamsrc_photography_set_property (src : GstDroidCamSrc) (prop_id : PropId)
    (_value : GValue) : Bool × GstDroidCamSrc :=
  match prop_id with
  | .PROP_WB_MODE
  | .PROP_COLOR_TONE
  | .PROP_SCENE_MODE
  | .PROP_FLASH_MODE
  | .PROP_FLICKER_MODE
  | .PROP_FOCUS_MODE
  | .PROP_EV_COMP
  | .PROP_ISO_SPEED
  | .PROP_APERTURE
  | .PROP_EXPOSURE_TIME
  | .PROP_ZOOM
  | .PROP_COLOR_TEMPERATURE
  | .PROP_WHITE_POINT
  | .PROP_ANALOG_GAIN
  | .PROP_LENS_FOCUS
  | .PROP_MIN_EXPOSURE_TIME
  | .PROP_MAX_EXPOSURE_TIME
  | .PROP_NOISE_REDUCTION
  | .PROP_EXPOSURE_MODE => (true, src)
  | _ => (false, src)

/-! ## Initialisation (lines 403-453) -/

/-- The block `g_slice_new0` returns: every field zero. -/
def g_slice_new0 (K : GstPhotographyEnums) : GstDroidCamSrcPhotography :=
  { settings :=
    { wb_mode := 0, tone_mode := 0, scene_mode := 0, flash_mode := 0, exposure_time := 0
      aperture := 0, ev_compensation := 0, iso_speed := 0, zoom := 0, flicker_mode := 0
      focus_mode := 0, noise_reduction := 0, exposure_mode := 0, color_temperature := 0
      white_point := List.replicate K.MAX_WHITE_POINT_VALUES 0
      analog_gain := 0, lens_focus := 0, min_exposure_time := 0, max_exposure_time := 0 } }

/-- Source: `gst_droidcamsrc_photography_init (src)`. The argument `loaded` is the outcome of
`g_key_file_load_from_file` on the configuration file: the parsed file, or the message of the
error when the file is missing or malformed. The key file is not consulted after loading (the
call of `gst_droidcamsrc_photography_load` is commented out). The assignments to the fields of
`src->photo->settings` are listed in source order; each field is assigned once. -/
def gst_droidcamsrc_photography_init (K : GstPhotographyEnums) (src : GstDroidCamSrc)
    (loaded : Except String GKeyFile) : GstDroidCamSrc :=
  let photo := g_slice_new0 K
  let warnings :=
    match loaded with
    | .error message => src.warnings ++ [LogLine.failed_to_load_configuration_file message]
    | .ok _ => src.warnings
  let settings : GstPhotographySettings :=
    { photo.settings with
      wb_mode := K.GST_PHOTOGRAPHY_WB_MODE_AUTO
      tone_mode := K.GST_PHOTOGRAPHY_COLOR_TONE_MODE_NORMAL
      scene_mode := K.GST_PHOTOGRAPHY_SCENE_MODE_AUTO
      flash_mode := K.GST_PHOTOGRAPHY_FLASH_MODE_AUTO
      exposure_time := 0
      aperture := 0
      ev_compensation := 0
      iso_speed := 0
      zoom := 1
      flicker_mode := K.GST_PHOTOGRAPHY_FLICKER_REDUCTION_OFF
      focus_mode := K.GST_PHOTOGRAPHY_FOCUS_MODE_CONTINUOUS_NORMAL
      noise_reduction := 0
      exposure_mode := K.GST_PHOTOGRAPHY_EXPOSURE_MODE_AUTO
      color_temperature := 0
      white_point := List.replicate K.MAX_WHITE_POINT_VALUES 0
      analog_gain := 0
      lens_focus := 0
      min_exposure_time := 0
      max_exposure_time := 0 }
  { photo := some { photo with settings := settings }, warnings := warnings }

/-- Source: `gst_droidcamsrc_photography_destroy (src)`. -/
def gst_droidcamsrc_photography_destroy (src : GstDroidCamSrc) : GstDroidCamSrc :=
  { src with photo := none }

/-- An element on which `gst_droidcamsrc_photography_init` has not run yet. -/
def blank_src : GstDroidCamSrc := { photo := none, warnings := [] }

/-- A freshly initialised adapter whose configuration file was missing. -/
def fresh_src : GstDroidCamSrc :=
  gst_droidcamsrc_photography_init gst_1_x_enums blank_src (.error "No such file or directory")

/-! ## The pipeline controller (`tools/simple-camera/videoplayer.cpp`)

The player talks to three collaborators that are not part of the file: the viewfinder renderer
(`QtCamViewfinderRenderer`), the `camerabin` element `m_bin` and the `droidcamsrc` element
`m_src`. Their answers are supplied by an environment `Env`; every call that reaches one of
them, every signal the player emits and every entry into `start()` or `stop()` is appended to
the field `trace` of the player state, so that the order of effects can be stated.
-/

/-- The states of a GStreamer element (`GstState`). -/
inductive GstState where
  | GST_STATE_VOID_PENDING
  | GST_STATE_NULL
  | GST_STATE_READY
  | GST_STATE_PAUSED
  | GST_STATE_PLAYING
  deriving DecidableEq, Repr

/-- The results of a state change (`GstStateChangeReturn`). -/
inductive GstStateChangeReturn where
  | GST_STATE_CHANGE_FAILURE
  | GST_STATE_CHANGE_SUCCESS
  | GST_STATE_CHANGE_ASYNC
  | GST_STATE_CHANGE_NO_PREROLL
  deriving DecidableEq, Repr

/-- An observable step of the player. -/
inductive Event where
  /-- Entry into `VideoPlayer::start`. -/
  | start_called
  /-- Entry into `VideoPlayer::stop`. -/
  | stop_called
  /-- The call `QtCamViewfinderRenderer::create (this)` and whether it returned a renderer. -/
  | renderer_create (ok : Bool)
  /-- The call `QObject::connect (m_renderer, SIGNAL (updateRequested ()), ..)`. -/
  | renderer_connect
  /-- The call `m_renderer->resize (..)`. -/
  | renderer_resize
  /-- The call `m_renderer->sinkElement ()` and the element it returned. -/
  | renderer_sinkElement (sink : Option Nat)
  /-- The call `m_renderer->reset ()`. -/
  | renderer_reset
  /-- The write `g_object_set (m_bin, "viewfinder-sink", m_sink, NULL)`. -/
  | set_viewfinder_sink (sink : Option Nat)
  /-- The call `gst_element_set_state (m_bin, state)` and its result. -/
  | set_state (state : GstState) (ret : GstStateChangeReturn)
  /-- The write `g_object_set (m_bin, "mode", mode, NULL)`. -/
  | set_mode (mode : Int)
  /-- The write `g_object_set (m_src, "camera-device", device, NULL)`. -/
  | set_camera_device (device : Int)
  /-- The request `g_signal_emit_by_name (m_bin, "start-capture", NULL)`. -/
  | start_capture
  /-- The request `g_signal_emit_by_name (m_bin, "stop-capture", NULL)`. -/
  | stop_capture
  /-- A line written with `qmlInfo (this)`. -/
  | qmlInfo (text : String)
  /-- A line written with `qWarning ()`. -/
  | qWarning (text : String)
  /-- The signal `runningChanged ()`. -/
  | runningChanged
  /-- The signal `modeChanged ()`. -/
  | modeChanged
  /-- The signal `deviceChanged ()`. -/
  | deviceChanged
  /-- The signal `error (message, code, debug)`; `debug = none` is a `NULL` detail string. -/
  | error (message : String) (code : Int) (debug : Option String)
  deriving DecidableEq, Repr

/-- The `camerabin` element behind `m_bin`, as GStreamer keeps it: the current state, the
pending state of an asynchronous change (`GST_STATE_VOID_PENDING` when there is none), the
result of the last state change, and the two properties the player writes. -/
structure CameraBin where
  current : GstState
  pending : GstState
  last_return : GstStateChangeReturn
  mode : Int
  viewfinder_sink : Option Nat
  deriving DecidableEq, Repr

/-- The `droidcamsrc` element behind `m_src`: the two properties the player uses. -/
structure DroidCamSrcElement where
  camera_device : Int
  ready_for_capture : Bool
  deriving DecidableEq, Repr

/-- A viewfinder renderer (`QtCamViewfinderRenderer`); the player only holds a pointer to it. -/
inductive QtCamViewfinderRenderer where
  | renderer
  deriving DecidableEq, Repr

/-- The answers of the collaborators. Each answer is indexed by the length of the trace at the
moment of the call, so that an environment may answer every call differently. -/
structure Env where
  /-- Whether `QtCamViewfinderRenderer::create` returns a renderer. -/
  renderer_create : Nat → Bool
  /-- The element `m_renderer->sinkElement ()` returns (`none` is `NULL`). -/
  sinkElement : Nat → Option Nat
  /-- The result of `gst_element_set_state (m_bin, ..)`. -/
  set_state : Nat → GstStateChangeReturn
  /-- Whether a pending asynchronous state change completes (`true`) or fails (`false`) when
  `gst_element_get_state` waits for it. -/
  async_done : Nat → Bool

/-- The fields of `VideoPlayer` (`none` is a null pointer) and the trace. -/
structure VideoPlayer where
  m_renderer : Option QtCamViewfinderRenderer
  m_bin : Option CameraBin
  m_src : Option DroidCamSrcElement
  m_sink : Option Nat
  trace : List Event
  deriving DecidableEq, Repr

namespace VideoPlayer

/-- Append an event to the trace. -/
def log (p : VideoPlayer) (e : Event) : VideoPlayer :=
  { p with trace := p.trace ++ [e] }

/-- GStreamer: what a state change with result `ret` towards `state` leaves in the element. On
`FAILURE` the element keeps its state and remembers the failure; on `ASYNC` the target becomes
the pending state; on `SUCCESS` and `NO_PREROLL` the element is in the target state. -/
def change_state (bin : CameraBin) (state : GstState) (ret : GstStateChangeReturn) : CameraBin :=
  match ret with
  | .GST_STATE_CHANGE_FAILURE =>
    { bin with pending := .GST_STATE_VOID_PENDING, last_return := ret }
  | .GST_STATE_CHANGE_ASYNC => { bin with pending := state, last_return := ret }
  | _ => { bin with current := state, pending := .GST_STATE_VOID_PENDING, last_return := ret }

/-- GStreamer: `gst_element_set_state (m_bin, state)`. On a `NULL` element the call fails at
once. Otherwise the environment supplies the result and the element changes as `change_state`
says. -/
def gst_element_set_state (env : Env) (p : VideoPlayer) (state : GstState) :
    GstStateChangeReturn × VideoPlayer :=
  match p.m_bin with
  | none => (.GST_STATE_CHANGE_FAILURE, p)
  | some bin =>
    let ret := env.set_state p.trace.length
    (ret, { p with m_bin := some (change_state bin state ret)
                   trace := p.trace ++ [Event.set_state state ret] })

/-- GStreamer: `gst_element_get_state (m_bin, &st, NULL, GST_CLOCK_TIME_NONE)`. On a `NULL`
element the call fails. A remembered failure is reported at once. A pending asynchronous change
is waited for, and the environment decides whether it completes or fails. -/
def gst_element_get_state (env : Env) (p : VideoPlayer) :
    (GstStateChangeReturn × GstState) × VideoPlayer :=
  match p.m_bin with
  | none => ((.GST_STATE_CHANGE_FAILURE, .GST_STATE_VOID_PENDING), p)
  | some bin =>
    match bin.last_return with
    | .GST_STATE_CHANGE_ASYNC =>
      if env.async_done p.trace.length then
        let bin1 : CameraBin :=
          { bin with current := bin.pending, pending := .GST_STATE_VOID_PENDING
                     last_return := .GST_STATE_CHANGE_SUCCESS }
        ((.GST_STATE_CHANGE_SUCCESS, bin1.current), { p with m_bin := some bin1 })
      else
        let bin1 : CameraBin :=
          { bin with pending := .GST_STATE_VOID_PENDING
                     last_return := .GST_STATE_CHANGE_FAILURE }
        ((.GST_STATE_CHANGE_FAILURE, bin1.current), { p with m_bin := some bin1 })
    | ret => ((ret, bin.current), p)

/-- Source: the constructor `VideoPlayer::VideoPlayer`: all four pointers are null. -/
def new : VideoPlayer :=
  { m_renderer := none, m_bin := none, m_src := none, m_sink := none, trace := [] }

/-- Source: `VideoPlayer::classBegin`. The arguments are what `gst_element_factory_make`
returns for `camerabin` and for `droidcamsrc`. -/
def classBegin (p : VideoPlayer) (bin : Option CameraBin) (src : Option DroidCamSrcElement) :
    VideoPlayer :=
  { p with m_bin := bin, m_src := src }

/-- Source: `VideoPlayer::start`. -/
def start (env : Env) (p : VideoPlayer) : Bool × VideoPlayer :=
  let p := p.log .start_called
  let created : Option VideoPlayer :=
    match p.m_renderer with
    | none =>
      if env.renderer_create p.trace.length then
        some (({ p with m_renderer := some .renderer }.log (.renderer_create true)).log
          .renderer_connect)
      else
        none
    | some _ => some p
  match created with
  | none =>
    (false, (p.log (.renderer_create false)).log (.qmlInfo "Failed to create viewfinder renderer"))
  | some p =>
    let p := p.log .renderer_resize
    match p.m_bin with
    | none => (false, p.log (.qmlInfo "no playbin"))
    | some bin =>
      let p :=
        match p.m_sink with
        | none =>
          let sink := env.sinkElement p.trace.length
          let p := { p with m_sink := sink }.log (.renderer_sinkElement sink)
          { p with m_bin := some { bin with viewfinder_sink := sink } }.log
            (.set_viewfinder_sink sink)
        | some _ => p.log (.renderer_sinkElement (env.sinkElement p.trace.length))
      match gst_element_set_state env p .GST_STATE_PLAYING with
      | (.GST_STATE_CHANGE_FAILURE, p) =>
        (false, p.log (.qmlInfo "error setting pipeline to PLAYING"))
      | (_, p) => (true, p.log .runningChanged)

/-- Source: `VideoPlayer::stop`. -/
def stop (env : Env) (p : VideoPlayer) : Bool × VideoPlayer :=
  let p := p.log .stop_called
  match gst_element_set_state env p .GST_STATE_NULL with
  | (.GST_STATE_CHANGE_FAILURE, p) =>
    (false, p.log (.qmlInfo "error setting pipeline to NULL"))
  | (_, p) =>
    let p :=
      match p.m_renderer with
      | some _ => p.log .renderer_reset
      | none => p
    (true, p.log .runningChanged)

/-- Source: `VideoPlayer::geometryChanged`. -/
def geometryChanged (p : VideoPlayer) : VideoPlayer :=
  match p.m_renderer with
  | some _ => p.log .renderer_resize
  | none => p

/-- A message on the bus of `m_bin`: end of stream, an error with the fields
`gst_message_parse_error` extracts, or any other message. -/
inductive GstMessage where
  | GST_MESSAGE_EOS
  | GST_MESSAGE_ERROR (message : String) (code : Int) (debug : Option String)
  | GST_MESSAGE_OTHER
  deriving DecidableEq, Repr

/-- Source: `VideoPlayer::bus_call (bus, msg, data)`, with `that = data`. -/
def bus_call (env : Env) (that : VideoPlayer) (msg : GstMessage) : Bool × VideoPlayer :=
  match msg with
  | .GST_MESSAGE_EOS => (true, (that.stop env).2)
  | .GST_MESSAGE_ERROR message code debug =>
    let that := that.log (.qWarning ("Error " ++ message))
    let that := that.log (.error message code debug)
    (true, (that.stop env).2)
  | .GST_MESSAGE_OTHER => (true, that)

/-- Source: `VideoPlayer::running`: the `&&` reads `st` only when the call did not fail. -/
def running (env : Env) (p : VideoPlayer) : Bool × VideoPlayer :=
  match gst_element_get_state env p with
  | ((ret, st), p) =>
    (decide (ret ≠ .GST_STATE_CHANGE_FAILURE) && decide (st = .GST_STATE_PLAYING), p)

/-- Source: `VideoPlayer::capture`; the signal reaches the pipeline when `m_bin` is an
element. -/
def capture (p : VideoPlayer) : VideoPlayer :=
  match p.m_bin with
  | some _ => p.log .start_capture
  | none => p

/-- Source: `VideoPlayer::stopCapture`. -/
def stopCapture (p : VideoPlayer) : VideoPlayer :=
  match p.m_bin with
  | some _ => p.log .stop_capture
  | none => p

/-- Source: `VideoPlayer::readyForCapture`: `ready` starts as `FALSE` and `g_object_get` on a
null `m_src` stores nothing. -/
def readyForCapture (p : VideoPlayer) : Bool :=
  match p.m_src with
  | some src => src.ready_for_capture
  | none => false

/-- Source: `VideoPlayer::mode`. -/
def mode (p : VideoPlayer) : Int :=
  match p.m_bin with
  | none => 1
  | some bin => bin.mode

/-- The write `g_object_set (m_bin, "mode", mode, NULL)`; nothing happens on a null `m_bin`. -/
def g_object_set_mode (p : VideoPlayer) (mode : Int) : VideoPlayer :=
  match p.m_bin with
  | some bin => { p with m_bin := some { bin with mode := mode } }.log (.set_mode mode)
  | none => p

/-- Source: `VideoPlayer::setMode`. -/
def setMode (p : VideoPlayer) (mode : Int) : VideoPlayer :=
  if VideoPlayer.mode p = mode then p
  else (g_object_set_mode p mode).log .modeChanged

/-- Source: `VideoPlayer::device`. -/
def device (p : VideoPlayer) : Int :=
  match p.m_src with
  | none => 0
  | some src => src.camera_device

/-- The write `g_object_set (m_src, "camera-device", device, NULL)`; nothing happens on a null
`m_src`. -/
def g_object_set_camera_device (p : VideoPlayer) (device : Int) : VideoPlayer :=
  match p.m_src with
  | some src =>
    { p with m_src := some { src with camera_device := device } }.log (.set_camera_device device)
  | none => p

/-- Source: `VideoPlayer::setDevice`. -/
def setDevice (env : Env) (p : VideoPlayer) (device : Int) : VideoPlayer :=
  if VideoPlayer.device p = device then p
  else
    match running env p with
    | (r, p) =>
      let p := if r then (stop env p).2 else p
      let p := g_object_set_camera_device p device
      let p := if r then (start env p).2 else p
      p.log .deviceChanged

end VideoPlayer

/-- An environment in which the renderer is created, its sink is element `7`, and every state
change succeeds at once. -/
def env_ok : Env :=
  { renderer_create := fun _ => true
    sinkElement := fun _ => some 7
    set_state := fun _ => .GST_STATE_CHANGE_SUCCESS
    async_done := fun _ => true }

/-- An environment like `env_ok`, except that every state change fails. -/
def env_fail : Env :=
  { env_ok with set_state := fun _ => .GST_STATE_CHANGE_FAILURE }

/-- The `camerabin` element as the factory returns it: state `NULL`, image mode (`1`). -/
def camerabin_new : CameraBin :=
  { current := .GST_STATE_NULL, pending := .GST_STATE_VOID_PENDING
    last_return := .GST_STATE_CHANGE_SUCCESS, mode := 1, viewfinder_sink := none }

/-- The `droidcamsrc` element as the factory returns it: device `0`, not ready for capture. -/
def droidcamsrc_new : DroidCamSrcElement :=
  { camera_device := 0, ready_for_capture := false }

/-- A player after `classBegin` with both elements created. -/
def player_idle : VideoPlayer :=
  VideoPlayer.classBegin VideoPlayer.new (some camerabin_new) (some droidcamsrc_new)

/-- The player `player_idle` after a successful `start()`. -/
def player_running : VideoPlayer :=
  (VideoPlayer.start env_ok player_idle).2

/-- A running player whose `droidcamsrc` element could not be created (`m_src` is null). -/
def player_running_no_src : VideoPlayer :=
  (VideoPlayer.start env_ok
    (VideoPlayer.classBegin VideoPlayer.new (some camerabin_new) none)).2

/-- The player `player_running` after `capture()`: a capture is in progress. -/
def player_capturing : VideoPlayer :=
  VideoPlayer.capture player_running

/-- The events that make up a restart cycle: entry into `stop()`, entry into `start()`, and a
write of the camera-device selector. -/
def is_cycle_event : Event → Bool
  | .stop_called => true
  | .start_called => true
  | .set_camera_device _ => true
  | _ => false

/-- Whether an event is an `error` notification. -/
def is_error_event : Event → Bool
  | .error _ _ _ => true
  | _ => false

/-! ## Loading overrides (`gstdroidcamsrcphotography.c`, lines 465-500) -/

/-- The table built by `gst_droidcamsrc_photography_load`: a `GHashTable` with direct integer
keys (`GINT_TO_POINTER`) and string values, kept as an association list without repeated
keys. -/
abbrev GHashTable := List (Int × String)

/-- GLib: `g_hash_table_insert (table, key, value)`; an existing entry for `key` is replaced. -/
def g_hash_table_insert (table : GHashTable) (key : Int) (value : String) : GHashTable :=
  (key, value) :: table.filter (fun e => decide (e.1 ≠ key))

/-- GLib: `g_hash_table_lookup (table, key)`. -/
def g_hash_table_lookup (table : GHashTable) (key : Int) : Option String :=
  (table.find? (fun e => decide (e.1 = key))).map Prod.snd

/-- GLib: `g_key_file_get_keys (file, group_name, &len, &err)`: the keys of the group in file
order, or an error when the file has no such group. -/
def g_key_file_get_keys (file : GKeyFile) (group_name : String) : Except String (List String) :=
  match file.find? (fun g => decide (g.1 = group_name)) with
  | none => .error "group not found"
  | some g => .ok (g.2.map Prod.fst)

/-- GLib: `g_key_file_get_value (file, group_name, key, &err)`: the value of the last entry of
the group with that key, or an error (and `NULL`) when there is none to return. -/
def g_key_file_get_value (file : GKeyFile) (group_name : String) (key : String) :
    Except String String :=
  match file.find? (fun g => decide (g.1 = group_name)) with
  | none => .error "group not found"
  | some g =>
    match g.2.reverse.find? (fun e => decide (e.1 = key)) with
    | none => .error "key not found"
    | some (_, none) => .error "value not found"
    | some (_, some value) => .ok value

/-- C library: `isspace` in the C locale. -/
def isspace (c : Char) : Bool :=
  decide (c.toNat = 32) || (decide (9 ≤ c.toNat) && decide (c.toNat ≤ 13))

/-- The digits at the head of a character list, read as a decimal number after `acc`. -/
def atoi_digits (acc : Nat) : List Char → Nat
  | [] => acc
  | c :: cs => if c.isDigit then atoi_digits (acc * 10 + (c.toNat - 48)) cs else acc

/-- C library: `atoi (nptr)`: leading white space is skipped, an optional sign is read, then the
decimal digits that follow; without digits the result is `0`. The C standard leaves the result
undefined when the number does not fit an `int`; the definition returns the number itself, and
the theorems about it are stated for keys within the range of `int`. -/
def atoi (nptr : String) : Int :=
  match nptr.toList.dropWhile isspace with
  | '-' :: cs => - (atoi_digits 0 cs : Int)
  | '+' :: cs => (atoi_digits 0 cs : Int)
  | cs => (atoi_digits 0 cs : Int)

/-- Whether a value fits the C type `int` (32 bits). -/
def fits_int (n : Int) : Prop := -2147483648 ≤ n ∧ n ≤ 2147483647

/-- Source: the `for` loop of `gst_droidcamsrc_photography_load`, over the keys still to visit;
`err` is `NULL` on entry of every round and is reset to `NULL` after each warning. -/
def gst_droidcamsrc_photography_load_loop (file : GKeyFile) (property : String) :
    List String → GHashTable × List LogLine → GHashTable × List LogLine
  | [], acc => acc
  | key_x :: keys, (table, warnings) =>
    match g_key_file_get_value file property key_x with
    | .error message =>
      gst_droidcamsrc_photography_load_loop file property keys
        (table, warnings ++ [LogLine.failed_to_load_key property key_x message])
    | .ok value =>
      let key := atoi key_x
      gst_droidcamsrc_photography_load_loop file property keys
        (g_hash_table_insert table key value, warnings)

/-- Source: `gst_droidcamsrc_photography_load (file, property)`. The local `GError *err` is
declared without initialiser; the argument `err` is the content it happens to have on entry
(`none` is `NULL`). GLib stores an error only through a pointer that holds `NULL` and leaves
`err` untouched on success, so with a non-null content the first `if (err)` is taken on an
indeterminate pointer (`err->message` is read and `g_error_free (err)` is called): the
behaviour is undefined and the result is `none`. Otherwise the result is the table and the
warnings logged. -/
def gst_droidcamsrc_photography_load (file : GKeyFile) (property : String)
    (err : Option String) : Option (GHashTable × List LogLine) :=
  let table : GHashTable := []
  match err with
  | some _ => none
  | none =>
    match g_key_file_get_keys file property with
    | .error message => some (table, [LogLine.failed_to_load property message])
    | .ok keys => some (gst_droidcamsrc_photography_load_loop file property keys (table, []))

/-- A configuration file with one section, `flash-mode`, holding only the key `abc`. -/
def key_file_abc : GKeyFile := [("flash-mode", [("abc", some "on")])]

/-- A configuration file that overrides index `1` of `flash-mode` with `on`. -/
def key_file_flash_on : GKeyFile := [("flash-mode", [("1", some "on")])]

/-- A configuration file that overrides index `1` of `flash-mode` with `off`. -/
def key_file_flash_off : GKeyFile := [("flash-mode", [("1", some "off")])]

/-- Whether the key `key` of the section contributes to index `n` of the table: `atoi` files it
under `n` and `g_key_file_get_value` returns its value. -/
def filed_under (file : GKeyFile) (property : String) (n : Int) (key : String) : Bool :=
  decide (atoi key = n) && (g_key_file_get_value file property key).toBool

/-- The warning a key of the section causes, if any. -/
def key_warning (file : GKeyFile) (property : String) (key : String) : Option LogLine :=
  match g_key_file_get_value file property key with
  | .error message => some (LogLine.failed_to_load_key property key message)
  | .ok _ => none

/-! ## Sequences of calls on a player -/

/-- Whether an event is a write of the `viewfinder-sink` property of the pipeline. -/
def is_bind_event : Event → Bool
  | .set_viewfinder_sink _ => true
  | _ => false

/-- A call a client makes on a player. -/
inductive PlayerCall where
  | start
  | stop
  | setDevice (device : Int)
  deriving DecidableEq, Repr

/-- Perform one call. -/
def VideoPlayer.call (env : Env) (p : VideoPlayer) : PlayerCall → VideoPlayer
  | .start => (VideoPlayer.start env p).2
  | .stop => (VideoPlayer.stop env p).2
  | .setDevice device => VideoPlayer.setDevice env p device

/-- Perform a sequence of calls, first to last. -/
def VideoPlayer.run (env : Env) (p : VideoPlayer) : List PlayerCall → VideoPlayer
  | [] => p
  | c :: cs => VideoPlayer.run env (VideoPlayer.call env p c) cs

/-- The player `p2` continues the player `p`, has bound no viewfinder sink since, and still
records the sink `sink`. -/
def sink_kept (sink : Nat) (p p2 : VideoPlayer) : Prop :=
  ∃ evs, p2.trace = p.trace ++ evs ∧ evs.filter is_bind_event = [] ∧ p2.m_sink = some sink

/-! ## Theorems: the property adapter -/

/-- C1, counterexample. On a freshly initialised adapter the settings snapshot holds zoom `1`,
the getter of zoom fails, and `gst_droidcamsrc_photography_get_property` for `PROP_ZOOM` on an
output value holding `0` leaves `0` in it: the snapshot value `1` is not written. -/
theorem get_property_zoom_keeps_output_not_snapshot :
    (gst_droidcamsrc_get_zoom fresh_src).1 = none ∧
    (fresh_src.photo.map fun photo => photo.settings.zoom) = some 1 ∧
    gst_droidcamsrc_photography_get_property fresh_src .PROP_ZOOM (.float 0)
      = some ⟨true, .float 0, fresh_src⟩ ∧
    gst_droidcamsrc_photography_get_property fresh_src .PROP_ZOOM (.float 0)
      ≠ some ⟨true, .float 1, fresh_src⟩ := by
  refine ⟨rfl, rfl, rfl, ?_⟩
  intro h
  have h2 := congrArg (fun r => r.map (fun x => x.value)) h
  simp [gst_droidcamsrc_photography_get_property, gst_droidcamsrc_get_zoom] at h2

/-- C1, amended. For every property identifier routed to a typed device getter, every adapter
state and every content of the output value: the getter fails, and
`gst_droidcamsrc_photography_get_property` returns `TRUE`, leaves the output value as it was
on entry (it writes nothing, also not the snapshot value) and leaves the adapter state, hence
the snapshot, unchanged. -/
theorem get_property_getter_failure_keeps_output (src : GstDroidCamSrc) (prop_id : PropId)
    (value : GValue)
    (h : prop_id ∈ [PropId.PROP_WB_MODE, .PROP_COLOR_TONE, .PROP_SCENE_MODE, .PROP_FLASH_MODE,
      .PROP_FLICKER_MODE, .PROP_FOCUS_MODE, .PROP_NOISE_REDUCTION, .PROP_ZOOM, .PROP_EV_COMP,
      .PROP_APERTURE, .PROP_ISO_SPEED, .PROP_EXPOSURE_TIME]) :
    gst_droidcamsrc_photography_get_property src prop_id value = some ⟨true, value, src⟩ := by
  simp only [List.mem_cons, List.mem_singleton, List.not_mem_nil, or_false] at h
  rcases h with h | h | h | h | h | h | h | h | h | h | h | h <;> subst h <;> rfl

/-- Witness of `get_property_getter_failure_keeps_output` at `PROP_ZOOM` on a fresh adapter. -/
theorem get_property_getter_failure_keeps_output_witness :
    gst_droidcamsrc_photography_get_property fresh_src .PROP_ZOOM (.float 0)
      = some ⟨true, .float 0, fresh_src⟩ :=
  get_property_getter_failure_keeps_output fresh_src .PROP_ZOOM (.float 0) (by simp)

/-- C2, counterexample. On a freshly initialised adapter, setting colour temperature to `5000`
reports success, and the get that follows yields `0`, not `5000`. -/
theorem set_then_get_color_temperature_not_round_trip :
    (gst_droidcamsrc_photography_set_property fresh_src .PROP_COLOR_TEMPERATURE
      (.uint 5000)).1 = true ∧
    (gst_droidcamsrc_photography_get_property
      (gst_droidcamsrc_photography_set_property fresh_src .PROP_COLOR_TEMPERATURE
        (.uint 5000)).2 .PROP_COLOR_TEMPERATURE (.uint 0)).map (fun r => r.value)
      = some (.uint 0) ∧
    GValue.uint 0 ≠ GValue.uint 5000 := by
  refine ⟨rfl, rfl, ?_⟩
  simp

/-- C2, amended. `gst_droidcamsrc_photography_set_property` stores nothing: whenever it reports
success for an identifier `id` and a value `v`, the adapter state is the one before the call,
an immediately following `gst_droidcamsrc_photography_get_property (id)` yields exactly what it
yielded before the set, and for colour temperature that is the snapshot value (so the get
yields `v` only when the snapshot already held `v`). -/
theorem set_property_stores_nothing (src : GstDroidCamSrc) (prop_id : PropId) (v : GValue)
    (h : (gst_droidcamsrc_photography_set_property src prop_id v).1 = true) :
    (gst_droidcamsrc_photography_set_property src prop_id v).2 = src ∧
    (∀ out, gst_droidcamsrc_photography_get_property
        (gst_droidcamsrc_photography_set_property src prop_id v).2 prop_id out
      = gst_droidcamsrc_photography_get_property src prop_id out) ∧
    (∀ photo out, src.photo = some photo → prop_id = .PROP_COLOR_TEMPERATURE →
      gst_droidcamsrc_photography_get_property
        (gst_droidcamsrc_photography_set_property src prop_id v).2 prop_id out
      = some ⟨true, .uint photo.settings.color_temperature, src⟩) := by
  have hs : (gst_droidcamsrc_photography_set_property src prop_id v).2 = src := by
    cases prop_id <;> rfl
  refine ⟨hs, ?_, ?_⟩
  · intro out
    rw [hs]
  · intro photo out hp hid
    rw [hs]
    subst hid
    simp [gst_droidcamsrc_photography_get_property, hp, g_value_set_uint]

/-- Witness of `set_property_stores_nothing` at colour temperature `5000` on a fresh adapter. -/
theorem set_property_stores_nothing_witness :
    (gst_droidcamsrc_photography_set_property fresh_src .PROP_COLOR_TEMPERATURE
      (.uint 5000)).2 = fresh_src :=
  (set_property_stores_nothing fresh_src .PROP_COLOR_TEMPERATURE (.uint 5000) rfl).1

/-- C3. Every typed getter and setter without a device-backed implementation (the static
`gst_droidcamsrc_get_*` and `gst_droidcamsrc_set_*` and the interface functions generated by
`PHOTO_IFACE_FUNC`, for ev_compensation, iso_speed, aperture, exposure, white_balance_mode,
color_tone_mode, scene_mode, flash_mode, zoom, flicker_mode, focus_mode, noise_reduction and
config) reports failure for every adapter state and every argument, and returns the adapter
state, hence the settings snapshot, as it was. -/
theorem typed_getters_setters_not_supported :
    (∀ src, gst_droidcamsrc_get_ev_compensation src = (none, src)) ∧
    (∀ src val, gst_droidcamsrc_set_ev_compensation src val = (false, src)) ∧
    (∀ photo, gst_droidcamsrc_photography_get_ev_compensation photo = (none, photo)) ∧
    (∀ photo val, gst_droidcamsrc_photography_set_ev_compensation photo val = (false, photo)) ∧
    (∀ src, gst_droidcamsrc_get_iso_speed src = (none, src)) ∧
    (∀ src val, gst_droidcamsrc_set_iso_speed src val = (false, src)) ∧
    (∀ photo, gst_droidcamsrc_photography_get_iso_speed photo = (none, photo)) ∧
    (∀ photo val, gst_droidcamsrc_photography_set_iso_speed photo val = (false, photo)) ∧
    (∀ src, gst_droidcamsrc_get_aperture src = (none, src)) ∧
    (∀ src val, gst_droidcamsrc_set_aperture src val = (false, src)) ∧
    (∀ photo, gst_droidcamsrc_photography_get_aperture photo = (none, photo)) ∧
    (∀ photo val, gst_droidcamsrc_photography_set_aperture photo val = (false, photo)) ∧
    (∀ src, gst_droidcamsrc_get_exposure src = (none, src)) ∧
    (∀ src val, gst_droidcamsrc_set_exposure src val = (false, src)) ∧
    (∀ photo, gst_droidcamsrc_photography_get_exposure photo = (none, photo)) ∧
    (∀ photo val, gst_droidcamsrc_photography_set_exposure photo val = (false, photo)) ∧
    (∀ src, gst_droidcamsrc_get_white_balance_mode src = (none, src)) ∧
    (∀ src val, gst_droidcamsrc_set_white_balance_mode src val = (false, src)) ∧
    (∀ photo, gst_droidcamsrc_photography_get_white_balance_mode photo = (none, photo)) ∧
    (∀ photo val, gst_droidcamsrc_photography_set_white_balance_mode photo val = (false, photo)) ∧
    (∀ src, gst_droidcamsrc_get_color_tone_mode src = (none, src)) ∧
    (∀ src val, gst_droidcamsrc_set_color_tone_mode src val = (false, src)) ∧
    (∀ photo, gst_droidcamsrc_photography_get_color_tone_mode photo = (none, photo)) ∧
    (∀ photo val, gst_droidcamsrc_photography_set_color_tone_mode photo val = (false, photo)) ∧
    (∀ src, gst_droidcamsrc_get_scene_mode src = (none, src)) ∧
    (∀ src val, gst_droidcamsrc_set_scene_mode src val = (false, src)) ∧
    (∀ photo, gst_droidcamsrc_photography_get_scene_mode photo = (none, photo)) ∧
    (∀ photo val, gst_droidcamsrc_photography_set_scene_mode photo val = (false, photo)) ∧
    (∀ src, gst_droidcamsrc_get_flash_mode src = (none, src)) ∧
    (∀ src val, gst_droidcamsrc_set_flash_mode src val = (false, src)) ∧
    (∀ photo, gst_droidcamsrc_photography_get_flash_mode photo = (none, photo)) ∧
    (∀ photo val, gst_droidcamsrc_photography_set_flash_mode photo val = (false, photo)) ∧
    (∀ src, gst_droidcamsrc_get_zoom src = (none, src)) ∧
    (∀ src val, gst_droidcamsrc_set_zoom src val = (false, src)) ∧
    (∀ photo, gst_droidcamsrc_photography_get_zoom photo = (none, photo)) ∧
    (∀ photo val, gst_droidcamsrc_photography_set_zoom photo val = (false, photo)) ∧
    (∀ src, gst_droidcamsrc_get_flicker_mode src = (none, src)) ∧
    (∀ src val, gst_droidcamsrc_set_flicker_mode src val = (false, src)) ∧
    (∀ photo, gst_droidcamsrc_photography_get_flicker_mode photo = (none, photo)) ∧
    (∀ photo val, gst_droidcamsrc_photography_set_flicker_mode photo val = (false, photo)) ∧
    (∀ src, gst_droidcamsrc_get_focus_mode src = (none, src)) ∧
    (∀ src val, gst_droidcamsrc_set_focus_mode src val = (false, src)) ∧
    (∀ photo, gst_droidcamsrc_photography_get_focus_mode photo = (none, photo)) ∧
    (∀ photo val, gst_droidcamsrc_photography_set_focus_mode photo val = (false, photo)) ∧
    (∀ src, gst_droidcamsrc_get_noise_reduction src = (none, src)) ∧
    (∀ src val, gst_droidcamsrc_set_noise_reduction src val = (false, src)) ∧
    (∀ photo, gst_droidcamsrc_photography_get_noise_reduction photo = (none, photo)) ∧
    (∀ photo val, gst_droidcamsrc_photography_set_noise_reduction photo val = (false, photo)) ∧
    (∀ src, gst_droidcamsrc_get_config src = (none, src)) ∧
    (∀ src val, gst_droidcamsrc_set_config src val = (false, src)) ∧
    (∀ photo, gst_droidcamsrc_photography_get_config photo = (none, photo)) ∧
    (∀ photo val, gst_droidcamsrc_photography_set_config photo val = (false, photo)) := by
  refine ⟨?_, ?_, ?_, ?_, ?_, ?_, ?_, ?_, ?_, ?_, ?_, ?_, ?_, ?_, ?_, ?_, ?_, ?_, ?_, ?_, ?_, ?_, ?_, ?_, ?_, ?_, ?_, ?_, ?_, ?_, ?_, ?_, ?_, ?_, ?_, ?_, ?_, ?_, ?_, ?_, ?_, ?_, ?_, ?_, ?_, ?_, ?_, ?_, ?_, ?_, ?_, ?_⟩ <;> intros <;> rfl

/-- C9, counterexample. The first call of `gst_droidcamsrc_prepare_for_capture` on a freshly
initialised adapter reports failure and leaves the adapter as it was: it registers nothing. -/
theorem prepare_for_capture_first_call_fails :
    gst_droidcamsrc_photography_prepare_for_capture fresh_src 1 2 3 = (false, fresh_src) := by
  rfl

/-- C9, amended. When `prepare_for_capture` is called twice in a row, both calls report failure
(`FALSE`; there is no `BUSY` code) and the adapter state after each call is the state before
the first call: no pending request is registered, so none can be replaced. -/
theorem prepare_for_capture_twice_both_fail (src : GstDroidCamSrc) (func capture_caps user_data
    func2 capture_caps2 user_data2 : Nat) :
    gst_droidcamsrc_photography_prepare_for_capture src func capture_caps user_data
      = (false, src) ∧
    gst_droidcamsrc_photography_prepare_for_capture
      (gst_droidcamsrc_photography_prepare_for_capture src func capture_caps user_data).2
      func2 capture_caps2 user_data2 = (false, src) := by
  exact ⟨rfl, rfl⟩

/-- C10. Whenever the configuration file cannot be loaded (`g_key_file_load_from_file` fails
with some message), `gst_droidcamsrc_photography_init` completes, logs one warning, and every
field of the settings snapshot holds its factory default. -/
theorem init_defaults_when_load_fails (K : GstPhotographyEnums) (src : GstDroidCamSrc)
    (message : String) :
    ∃ photo, (gst_droidcamsrc_photography_init K src (.error message)).photo = some photo ∧
      (gst_droidcamsrc_photography_init K src (.error message)).warnings
        = src.warnings ++ [LogLine.failed_to_load_configuration_file message] ∧
      photo.settings.wb_mode = K.GST_PHOTOGRAPHY_WB_MODE_AUTO ∧
      photo.settings.tone_mode = K.GST_PHOTOGRAPHY_COLOR_TONE_MODE_NORMAL ∧
      photo.settings.scene_mode = K.GST_PHOTOGRAPHY_SCENE_MODE_AUTO ∧
      photo.settings.flash_mode = K.GST_PHOTOGRAPHY_FLASH_MODE_AUTO ∧
      photo.settings.exposure_time = 0 ∧
      photo.settings.aperture = 0 ∧
      photo.settings.ev_compensation = 0 ∧
      photo.settings.iso_speed = 0 ∧
      photo.settings.zoom = 1 ∧
      photo.settings.flicker_mode = K.GST_PHOTOGRAPHY_FLICKER_REDUCTION_OFF ∧
      photo.settings.focus_mode = K.GST_PHOTOGRAPHY_FOCUS_MODE_CONTINUOUS_NORMAL ∧
      photo.settings.noise_reduction = 0 ∧
      photo.settings.exposure_mode = K.GST_PHOTOGRAPHY_EXPOSURE_MODE_AUTO ∧
      photo.settings.color_temperature = 0 ∧
      photo.settings.white_point.length = K.MAX_WHITE_POINT_VALUES ∧
      (∀ x ∈ photo.settings.white_point, x = 0) ∧
      photo.settings.analog_gain = 0 ∧
      photo.settings.lens_focus = 0 ∧
      photo.settings.min_exposure_time = 0 ∧
      photo.settings.max_exposure_time = 0 := by
  refine ⟨_, rfl, rfl, rfl, rfl, rfl, rfl, rfl, rfl, rfl, rfl, rfl, rfl, rfl, rfl, rfl, rfl,
    ?_, ?_, rfl, rfl, rfl, rfl⟩
  · simp [gst_droidcamsrc_photography_init]
  · intro x hx
    simp [gst_droidcamsrc_photography_init] at hx
    exact hx.2

/-! ## Theorems: the pipeline controller -/

/-- C4, counterexample. On a running player in mode `1`, `setMode (2)` appends exactly the write
of the mode selector and `modeChanged` to the trace: `stop()` and `start()` are not entered and
the pipeline stays in `PLAYING`. -/
theorem setMode_while_running_no_stop_start :
    (VideoPlayer.running env_ok player_running).1 = true ∧
    VideoPlayer.mode player_running ≠ 2 ∧
    (VideoPlayer.setMode player_running 2).trace
      = player_running.trace ++ [Event.set_mode 2, Event.modeChanged] ∧
    Event.stop_called ∉ [Event.set_mode 2, Event.modeChanged] ∧
    Event.start_called ∉ [Event.set_mode 2, Event.modeChanged] ∧
    (VideoPlayer.running env_ok (VideoPlayer.setMode player_running 2)).1 = true := by
  decide

/-- C6, counterexample. On a running player whose source reports `ready-for-capture = FALSE`,
`capture()` still sends the `start-capture` request to the pipeline. -/
theorem capture_not_ready_still_requests :
    VideoPlayer.readyForCapture player_running = false ∧
    (VideoPlayer.capture player_running).trace
      = player_running.trace ++ [Event.start_capture] := by
  decide

/-- C7, counterexample. On a running player that has a renderer, a `stop()` whose state change
to `NULL` fails returns `false` without resetting the renderer. -/
theorem stop_failed_state_change_no_reset :
    player_running.m_renderer = some .renderer ∧
    (VideoPlayer.stop env_fail player_running).1 = false ∧
    (VideoPlayer.stop env_fail player_running).2.trace
      = player_running.trace ++ [Event.stop_called,
          Event.set_state .GST_STATE_NULL .GST_STATE_CHANGE_FAILURE,
          Event.qmlInfo "error setting pipeline to NULL"] ∧
    Event.renderer_reset ∉ [Event.stop_called,
          Event.set_state .GST_STATE_NULL .GST_STATE_CHANGE_FAILURE,
          Event.qmlInfo "error setting pipeline to NULL"] := by
  decide

/-- C5, counterexample. On a running player with device `0`, `setDevice (1)` in an environment
where the state changes fail returns with `running()` false; and on a running player without
source element, `setDevice (1)` returns with `device()` still `0`. -/
theorem setDevice_restart_fails_not_running :
    ((VideoPlayer.running env_fail player_running).1 = true ∧
      VideoPlayer.device player_running ≠ 1 ∧
      (VideoPlayer.running env_fail (VideoPlayer.setDevice env_fail player_running 1)).1
        = false) ∧
    ((VideoPlayer.running env_ok player_running_no_src).1 = true ∧
      VideoPlayer.device player_running_no_src ≠ 1 ∧
      VideoPlayer.device (VideoPlayer.setDevice env_ok player_running_no_src 1) = 0) := by
  decide

/-- The function `stop()` on a player without pipeline element. -/
theorem stop_of_no_bin (env : Env) (p : VideoPlayer) (h : p.m_bin = none) :
    VideoPlayer.stop env p
      = (false, { p with trace := p.trace ++ [Event.stop_called,
          Event.qmlInfo "error setting pipeline to NULL"] }) := by
  simp [VideoPlayer.stop, VideoPlayer.gst_element_set_state, VideoPlayer.log, h]

/-- The function `stop()` when the state change to `NULL` fails. -/
theorem stop_of_failure (env : Env) (p : VideoPlayer) (bin : CameraBin) (h : p.m_bin = some bin)
    (hret : env.set_state (p.trace.length + 1) = .GST_STATE_CHANGE_FAILURE) :
    VideoPlayer.stop env p
      = (false, { p with
          m_bin := some (VideoPlayer.change_state bin .GST_STATE_NULL .GST_STATE_CHANGE_FAILURE)
          trace := p.trace ++ [Event.stop_called,
            Event.set_state .GST_STATE_NULL .GST_STATE_CHANGE_FAILURE,
            Event.qmlInfo "error setting pipeline to NULL"] }) := by
  simp [VideoPlayer.stop, VideoPlayer.gst_element_set_state, VideoPlayer.log, h, hret]

/-- The function `stop()` when the state change to `NULL` does not fail. -/
theorem stop_of_no_failure (env : Env) (p : VideoPlayer) (bin : CameraBin)
    (h : p.m_bin = some bin)
    (hret : env.set_state (p.trace.length + 1) ≠ .GST_STATE_CHANGE_FAILURE) :
    VideoPlayer.stop env p
      = (true, { p with
          m_bin := some (VideoPlayer.change_state bin .GST_STATE_NULL
            (env.set_state (p.trace.length + 1)))
          trace := p.trace ++ [Event.stop_called,
            Event.set_state .GST_STATE_NULL (env.set_state (p.trace.length + 1))]
            ++ (match p.m_renderer with
                | some _ => [Event.renderer_reset]
                | none => [])
            ++ [Event.runningChanged] }) := by
  cases hr : env.set_state (p.trace.length + 1) <;> cases hm : p.m_renderer <;>
    simp_all [VideoPlayer.stop, VideoPlayer.gst_element_set_state, VideoPlayer.log]

/-- What one `start()` does, whatever the environment answers: the trace grows by the entry
event and events that are not part of a restart cycle, the source element is not touched, and
the result of the state change to `PLAYING`, when one was requested, is what the pipeline
element remembers. -/
theorem start_spec (env : Env) (p : VideoPlayer) :
    ∃ evs, (VideoPlayer.start env p).2.trace = p.trace ++ Event.start_called :: evs ∧
      evs.filter is_cycle_event = [] ∧
      (VideoPlayer.start env p).2.m_src = p.m_src ∧
      (Event.set_state .GST_STATE_PLAYING .GST_STATE_CHANGE_SUCCESS ∈ evs →
        ∃ bin, (VideoPlayer.start env p).2.m_bin = some bin ∧
          bin.current = .GST_STATE_PLAYING ∧
          bin.last_return = .GST_STATE_CHANGE_SUCCESS) ∧
      (Event.set_state .GST_STATE_PLAYING .GST_STATE_CHANGE_FAILURE ∈ evs →
        ∃ bin, (VideoPlayer.start env p).2.m_bin = some bin ∧
          bin.last_return = .GST_STATE_CHANGE_FAILURE) := by
  unfold VideoPlayer.start
  cases hr : p.m_renderer <;> cases hb : p.m_bin <;> cases hs : p.m_sink <;>
    cases hc : env.renderer_create (p.trace.length + 1) <;>
    simp [VideoPlayer.log, VideoPlayer.gst_element_set_state, hr, hb, hs, hc]
  all_goals first
    | (simp [is_cycle_event]; done)
    | (split <;>
        (rename_i heq
         simp at heq
         obtain ⟨h1, h2⟩ := heq
         subst h2
         simp [is_cycle_event, VideoPlayer.change_state, h1]
         try (refine ⟨fun h => ?_, fun h => ?_⟩ <;> subst h <;> simp_all)))

/-- What one `stop()` does, whatever the environment answers: the trace grows by the entry
event and events that are neither part of a restart cycle, nor an `error` notification, nor a
state change to `PLAYING`; the source element, the renderer and the sink are not touched. -/
theorem stop_spec (env : Env) (p : VideoPlayer) :
    ∃ evs, (VideoPlayer.stop env p).2.trace = p.trace ++ Event.stop_called :: evs ∧
      evs.filter is_cycle_event = [] ∧
      evs.filter is_error_event = [] ∧
      (∀ ret, Event.set_state .GST_STATE_PLAYING ret ∉ evs) ∧
      (VideoPlayer.stop env p).2.m_src = p.m_src ∧
      (VideoPlayer.stop env p).2.m_renderer = p.m_renderer ∧
      (VideoPlayer.stop env p).2.m_sink = p.m_sink := by
  cases hb : p.m_bin with
  | none =>
    rw [stop_of_no_bin env p hb]
    exact ⟨_, rfl, by simp [is_cycle_event], by simp [is_error_event], by simp, rfl, rfl, rfl⟩
  | some bin =>
    by_cases hret : env.set_state (p.trace.length + 1) = .GST_STATE_CHANGE_FAILURE
    · rw [stop_of_failure env p bin hb hret]
      exact ⟨_, rfl, by simp [is_cycle_event], by simp [is_error_event], by simp, rfl, rfl, rfl⟩
    · rw [stop_of_no_failure env p bin hb hret]
      refine ⟨_, by simp only [List.append_assoc, List.cons_append, List.nil_append]; rfl,
        ?_, ?_, ?_, rfl, rfl, rfl⟩ <;>
      cases p.m_renderer <;> simp [is_cycle_event, is_error_event]

/-- After `stop()` the query `running()` answers `false`, whatever the environments answer. -/
theorem running_after_stop (env env2 : Env) (p : VideoPlayer) :
    (VideoPlayer.running env2 (VideoPlayer.stop env p).2).1 = false := by
  cases hb : p.m_bin with
  | none =>
    rw [stop_of_no_bin env p hb]
    simp [VideoPlayer.running, VideoPlayer.gst_element_get_state, hb]
  | some bin =>
    by_cases hret : env.set_state (p.trace.length + 1) = .GST_STATE_CHANGE_FAILURE
    · rw [stop_of_failure env p bin hb hret]
      simp [VideoPlayer.running, VideoPlayer.gst_element_get_state, VideoPlayer.change_state]
    · rw [stop_of_no_failure env p bin hb hret]
      cases hr : env.set_state (p.trace.length + 1) <;>
        simp_all [VideoPlayer.running, VideoPlayer.gst_element_get_state,
          VideoPlayer.change_state]
      split <;> simp

/-- After `stop()` the pipeline element remembers a failed state change, or is in `NULL`, or
is on its way to `NULL`. -/
theorem element_after_stop (env : Env) (p : VideoPlayer) (bin : CameraBin)
    (h : (VideoPlayer.stop env p).2.m_bin = some bin) :
    bin.last_return = .GST_STATE_CHANGE_FAILURE ∨ bin.current = .GST_STATE_NULL ∨
    (bin.last_return = .GST_STATE_CHANGE_ASYNC ∧ bin.pending = .GST_STATE_NULL) := by
  cases hb : p.m_bin with
  | none =>
    rw [stop_of_no_bin env p hb] at h
    simp [hb] at h
  | some bin0 =>
    by_cases hret : env.set_state (p.trace.length + 1) = .GST_STATE_CHANGE_FAILURE
    · rw [stop_of_failure env p bin0 hb hret] at h
      simp at h
      subst h
      simp [VideoPlayer.change_state]
    · rw [stop_of_no_failure env p bin0 hb hret] at h
      simp at h
      subst h
      cases hr : env.set_state (p.trace.length + 1) <;>
        simp_all [VideoPlayer.change_state]

/-- The query `running()` touches neither the trace nor the source element, the renderer or
the sink. -/
theorem running_frame (env : Env) (p : VideoPlayer) :
    (VideoPlayer.running env p).2.trace = p.trace ∧
    (VideoPlayer.running env p).2.m_src = p.m_src ∧
    (VideoPlayer.running env p).2.m_renderer = p.m_renderer ∧
    (VideoPlayer.running env p).2.m_sink = p.m_sink := by
  unfold VideoPlayer.running VideoPlayer.gst_element_get_state
  cases p.m_bin with
  | none => simp
  | some bin =>
    by_cases ha : env.async_done p.trace.length = true <;>
      cases h : bin.last_return <;> simp [h, ha]

/-- A pipeline element that remembers a successful change to `PLAYING` is running. -/
theorem running_of_playing (env : Env) (p : VideoPlayer) (bin : CameraBin)
    (hb : p.m_bin = some bin) (hc : bin.current = .GST_STATE_PLAYING)
    (hl : bin.last_return = .GST_STATE_CHANGE_SUCCESS) :
    (VideoPlayer.running env p).1 = true := by
  simp [VideoPlayer.running, VideoPlayer.gst_element_get_state, hb, hc, hl]

/-- A pipeline element that remembers a failed state change is not running. -/
theorem not_running_of_failure (env : Env) (p : VideoPlayer) (bin : CameraBin)
    (hb : p.m_bin = some bin) (hl : bin.last_return = .GST_STATE_CHANGE_FAILURE) :
    (VideoPlayer.running env p).1 = false := by
  simp [VideoPlayer.running, VideoPlayer.gst_element_get_state, hb, hl]

/-- C4, amended. `setMode (m)` with `m` different from the current mode is a live write, in
every pipeline state (a running pipeline included): when the pipeline element exists the player
changes only its mode selector, and the trace grows by exactly the write of the selector and
`modeChanged`; neither `stop()` nor `start()` is entered and no state change is requested. -/
theorem setMode_changed_is_live_write (p : VideoPlayer) (bin : CameraBin) (m : Int)
    (hb : p.m_bin = some bin) (h : VideoPlayer.mode p ≠ m) :
    VideoPlayer.setMode p m
      = { p with m_bin := some { bin with mode := m }
                 trace := p.trace ++ [Event.set_mode m, Event.modeChanged] } ∧
    VideoPlayer.mode (VideoPlayer.setMode p m) = m ∧
    Event.stop_called ∉ [Event.set_mode m, Event.modeChanged] ∧
    Event.start_called ∉ [Event.set_mode m, Event.modeChanged] ∧
    (∀ state ret, Event.set_state state ret ∉ [Event.set_mode m, Event.modeChanged]) := by
  have e : VideoPlayer.setMode p m
      = { p with m_bin := some { bin with mode := m }
                 trace := p.trace ++ [Event.set_mode m, Event.modeChanged] } := by
    simp [VideoPlayer.setMode, h, VideoPlayer.g_object_set_mode, hb, VideoPlayer.log]
  refine ⟨e, ?_, by simp, by simp, by simp⟩
  rw [e]
  simp [VideoPlayer.mode]

/-- Witness of `setMode_changed_is_live_write` on the running player, from mode `1` to `2`. -/
theorem setMode_changed_is_live_write_witness :
    (VideoPlayer.setMode player_running 2).trace
      = player_running.trace ++ [Event.set_mode 2, Event.modeChanged] :=
  congrArg VideoPlayer.trace
    (setMode_changed_is_live_write player_running
      { camerabin_new with current := .GST_STATE_PLAYING, viewfinder_sink := some 7 } 2
      (by decide) (by decide)).1

/-- C5, amended. For every device `d` different from the current device, `setDevice (d)`
called while `running()` is true on a player whose source element exists enters `stop()`
exactly once, then writes the camera-device selector, then enters `start()` exactly once, and
on return `device()` equals `d`. On return `running()` is true when the state change to
`PLAYING` of that `start()` succeeded and false when it failed. -/
theorem setDevice_running_one_cycle (env : Env) (p : VideoPlayer) (d : Int)
    (src : DroidCamSrcElement) (hsrc : p.m_src = some src) (hd : VideoPlayer.device p ≠ d)
    (hr : (VideoPlayer.running env p).1 = true) :
    ∃ evs, (VideoPlayer.setDevice env p d).trace = p.trace ++ evs ∧
      evs.filter is_cycle_event
        = [Event.stop_called, Event.set_camera_device d, Event.start_called] ∧
      VideoPlayer.device (VideoPlayer.setDevice env p d) = d ∧
      (Event.set_state .GST_STATE_PLAYING .GST_STATE_CHANGE_SUCCESS ∈ evs →
        (VideoPlayer.running env (VideoPlayer.setDevice env p d)).1 = true) ∧
      (Event.set_state .GST_STATE_PLAYING .GST_STATE_CHANGE_FAILURE ∈ evs →
        (VideoPlayer.running env (VideoPlayer.setDevice env p d)).1 = false) := by
  obtain ⟨hrt, hrs, _, _⟩ := running_frame env p
  have hrun : VideoPlayer.running env p = (true, (VideoPlayer.running env p).2) :=
    Prod.ext hr rfl
  generalize (VideoPlayer.running env p).2 = p1 at hrt hrs hrun
  obtain ⟨evs1, ht1, hc1, _, hn1, hs1, _, _⟩ := stop_spec env p1
  have hres : VideoPlayer.setDevice env p d
      = (VideoPlayer.start env
          (VideoPlayer.g_object_set_camera_device (VideoPlayer.stop env p1).2 d)).2.log
          .deviceChanged := by
    simp [VideoPlayer.setDevice, hd, hrun]
  generalize VideoPlayer.stop env p1 = sp at ht1 hs1 hres
  have hsrc2 : sp.2.m_src = some src := by rw [hs1, hrs, hsrc]
  have hp3 : VideoPlayer.g_object_set_camera_device sp.2 d
      = { sp.2 with m_src := some { src with camera_device := d }
                    trace := sp.2.trace ++ [Event.set_camera_device d] } := by
    simp [VideoPlayer.g_object_set_camera_device, hsrc2, VideoPlayer.log]
  rw [hp3] at hres
  obtain ⟨evs2, ht2, hc2, hs2, hok, hfail⟩ := start_spec env
    { sp.2 with m_src := some { src with camera_device := d }
                trace := sp.2.trace ++ [Event.set_camera_device d] }
  generalize VideoPlayer.start env
    { sp.2 with m_src := some { src with camera_device := d }
                trace := sp.2.trace ++ [Event.set_camera_device d] } = st
    at ht2 hs2 hok hfail hres
  have hmem : ∀ ret, Event.set_state .GST_STATE_PLAYING ret ∈
      Event.stop_called :: evs1 ++ Event.set_camera_device d :: Event.start_called :: evs2
        ++ [Event.deviceChanged] →
      Event.set_state .GST_STATE_PLAYING ret ∈ evs2 := by
    intro ret hm
    simp only [List.mem_append, List.mem_cons, List.mem_singleton, List.not_mem_nil,
      reduceCtorEq, false_or, or_false] at hm
    rcases hm with hm | hm
    · exact absurd hm (hn1 ret)
    · exact hm
  refine ⟨Event.stop_called :: evs1 ++ Event.set_camera_device d :: Event.start_called :: evs2
    ++ [Event.deviceChanged], ?_, ?_, ?_, ?_, ?_⟩
  · rw [hres]
    simp [VideoPlayer.log, ht2, ht1, hrt]
  · simp [List.filter_append, List.filter_cons, is_cycle_event, hc1, hc2]
  · rw [hres]
    simp [VideoPlayer.device, VideoPlayer.log, hs2]
  · intro hm
    obtain ⟨bin, hb, hcur, hlast⟩ := hok (hmem _ hm)
    rw [hres]
    exact running_of_playing env _ bin (by simp [VideoPlayer.log, hb]) hcur hlast
  · intro hm
    obtain ⟨bin, hb, hlast⟩ := hfail (hmem _ hm)
    rw [hres]
    exact not_running_of_failure env _ bin (by simp [VideoPlayer.log, hb]) hlast

/-- Witness of `setDevice_running_one_cycle`: the running player, from device `0` to `1`. -/
theorem setDevice_running_one_cycle_witness :
    ∃ evs, (VideoPlayer.setDevice env_ok player_running 1).trace = player_running.trace ++ evs ∧
      evs.filter is_cycle_event
        = [Event.stop_called, Event.set_camera_device 1, Event.start_called] ∧
      VideoPlayer.device (VideoPlayer.setDevice env_ok player_running 1) = 1 ∧
      (Event.set_state .GST_STATE_PLAYING .GST_STATE_CHANGE_SUCCESS ∈ evs →
        (VideoPlayer.running env_ok (VideoPlayer.setDevice env_ok player_running 1)).1
          = true) ∧
      (Event.set_state .GST_STATE_PLAYING .GST_STATE_CHANGE_FAILURE ∈ evs →
        (VideoPlayer.running env_ok (VideoPlayer.setDevice env_ok player_running 1)).1
          = false) :=
  setDevice_running_one_cycle env_ok player_running 1 droidcamsrc_new (by decide) (by decide)
    (by decide)

/-- C6, amended. `capture()` does not consult `readyForCapture()` and reports nothing (it is
`void`): called when `readyForCapture()` is false on a player whose pipeline element exists, it
sends the `start-capture` request to the pipeline, and nothing else of the player changes. -/
theorem capture_not_ready_sends_request (p : VideoPlayer) (bin : CameraBin)
    (hb : p.m_bin = some bin) (h : VideoPlayer.readyForCapture p = false) :
    VideoPlayer.capture p = { p with trace := p.trace ++ [Event.start_capture] } ∧
    VideoPlayer.readyForCapture (VideoPlayer.capture p) = false := by
  have e : VideoPlayer.capture p = { p with trace := p.trace ++ [Event.start_capture] } := by
    simp [VideoPlayer.capture, hb, VideoPlayer.log]
  refine ⟨e, ?_⟩
  rw [e]
  simpa [VideoPlayer.readyForCapture] using h

/-- Witness of `capture_not_ready_sends_request` on the running player, whose source is not
ready for capture. -/
theorem capture_not_ready_sends_request_witness :
    VideoPlayer.capture player_running
      = { player_running with trace := player_running.trace ++ [Event.start_capture] } :=
  (capture_not_ready_sends_request player_running
    { camerabin_new with current := .GST_STATE_PLAYING, viewfinder_sink := some 7 }
    (by decide) (by decide)).1

/-- C7, amended. A call to `stop()` on a player that has a renderer resets the renderer exactly
when the state change to `NULL` does not fail: if `stop()` returns `true` the trace grows by
the entry event, the state change, the reset of the renderer and `runningChanged`; if `stop()`
returns `false` the state change has failed and the renderer is not reset. -/
theorem stop_resets_renderer_unless_state_change_fails (env : Env) (p : VideoPlayer)
    (r : QtCamViewfinderRenderer) (h : p.m_renderer = some r) :
    ((VideoPlayer.stop env p).1 = true →
      ∃ ret, ret ≠ .GST_STATE_CHANGE_FAILURE ∧
        (VideoPlayer.stop env p).2.trace
          = p.trace ++ [Event.stop_called, Event.set_state .GST_STATE_NULL ret,
              Event.renderer_reset, Event.runningChanged]) ∧
    ((VideoPlayer.stop env p).1 = false →
      (VideoPlayer.gst_element_set_state env (p.log .stop_called) .GST_STATE_NULL).1
        = .GST_STATE_CHANGE_FAILURE ∧
      ∃ evs, (VideoPlayer.stop env p).2.trace = p.trace ++ evs ∧
        Event.renderer_reset ∉ evs) := by
  cases hb : p.m_bin with
  | none =>
    rw [stop_of_no_bin env p hb]
    refine ⟨by simp, fun _ => ⟨?_, _, rfl, by simp⟩⟩
    simp [VideoPlayer.gst_element_set_state, VideoPlayer.log, hb]
  | some bin =>
    by_cases hret : env.set_state (p.trace.length + 1) = .GST_STATE_CHANGE_FAILURE
    · rw [stop_of_failure env p bin hb hret]
      refine ⟨by simp, fun _ => ⟨?_, _, rfl, by simp⟩⟩
      simp [VideoPlayer.gst_element_set_state, VideoPlayer.log, hb, hret]
    · rw [stop_of_no_failure env p bin hb hret]
      refine ⟨fun _ => ⟨_, hret, ?_⟩, by simp⟩
      simp [h]

/-- Witness of `stop_resets_renderer_unless_state_change_fails`: the running player, stopped in
an environment where the state change succeeds. -/
theorem stop_resets_renderer_unless_state_change_fails_witness :
    ∃ ret, ret ≠ GstStateChangeReturn.GST_STATE_CHANGE_FAILURE ∧
      (VideoPlayer.stop env_ok player_running).2.trace
        = player_running.trace ++ [Event.stop_called, Event.set_state .GST_STATE_NULL ret,
            Event.renderer_reset, Event.runningChanged] :=
  (stop_resets_renderer_unless_state_change_fails env_ok player_running .renderer
    (by decide)).1 (by decide)

/-- C8. For every bus error message, delivered in any state of the player, `bus_call` returns
`TRUE`; the trace grows by the warning line, then one `error` notification carrying the text,
code and debug detail of the message unchanged, then the entry into `stop()`, then events of
`stop()` among which there is no further `error` notification and no further entry into
`stop()` or `start()`; and afterwards the pipeline is idle: `running()` is false whatever the
environment answers. -/
theorem bus_call_error_notifies_then_stops (env : Env) (that : VideoPlayer) (message : String)
    (code : Int) (debug : Option String) :
    (VideoPlayer.bus_call env that (.GST_MESSAGE_ERROR message code debug)).1 = true ∧
    (∃ evs, (VideoPlayer.bus_call env that (.GST_MESSAGE_ERROR message code debug)).2.trace
        = that.trace ++ [Event.qWarning ("Error " ++ message),
            Event.error message code debug, Event.stop_called] ++ evs ∧
      evs.filter is_error_event = [] ∧
      evs.filter is_cycle_event = [] ∧
      ((that.trace ++ [Event.qWarning ("Error " ++ message),
            Event.error message code debug, Event.stop_called] ++ evs).drop
          that.trace.length).filter is_error_event = [Event.error message code debug]) ∧
    (∀ env2, (VideoPlayer.running env2
      (VideoPlayer.bus_call env that (.GST_MESSAGE_ERROR message code debug)).2).1 = false) ∧
    (∀ bin, (VideoPlayer.bus_call env that (.GST_MESSAGE_ERROR message code debug)).2.m_bin
        = some bin →
      bin.last_return = .GST_STATE_CHANGE_FAILURE ∨ bin.current = .GST_STATE_NULL ∨
      (bin.last_return = .GST_STATE_CHANGE_ASYNC ∧ bin.pending = .GST_STATE_NULL)) := by
  refine ⟨rfl, ?_, ?_, ?_⟩
  · obtain ⟨evs, ht, hc, he, _⟩ := stop_spec env
      ((that.log (.qWarning ("Error " ++ message))).log (.error message code debug))
    refine ⟨evs, ?_, he, hc, ?_⟩
    · simp only [VideoPlayer.bus_call]
      rw [ht]
      simp [VideoPlayer.log]
    · simp [List.filter_append, List.filter_cons, is_error_event, he]
  · intro env2
    exact running_after_stop env env2 _
  · intro bin hbin
    exact element_after_stop env _ bin hbin

/-- An evaluation of `bus_call` on a player with a capture in progress, in an environment where
the state change of `stop()` fails: one `error` notification, then `stop()`, and `running()` is
false afterwards. -/
theorem bus_call_error_while_capturing_example :
    (VideoPlayer.bus_call env_fail player_capturing
      (.GST_MESSAGE_ERROR "boom" 3 (some "detail"))).2.trace
      = player_capturing.trace ++ [Event.qWarning "Error boom",
          Event.error "boom" 3 (some "detail"), Event.stop_called,
          Event.set_state .GST_STATE_NULL .GST_STATE_CHANGE_FAILURE,
          Event.qmlInfo "error setting pipeline to NULL"] ∧
    (VideoPlayer.running env_ok (VideoPlayer.bus_call env_fail player_capturing
      (.GST_MESSAGE_ERROR "boom" 3 (some "detail"))).2).1 = false := by
  decide

/-! ## Theorems: loading overrides -/

/-- Looking up a table after an insertion. -/
theorem lookup_insert (table : GHashTable) (key : Int) (value : String) (n : Int) :
    g_hash_table_lookup (g_hash_table_insert table key value) n
      = if key = n then some value else g_hash_table_lookup table n := by
  unfold g_hash_table_lookup g_hash_table_insert
  by_cases h : key = n
  · simp [h]
  · have hfun : (fun (a : Int × String) =>
          decide (decide (a.1 ≠ key) = true ∧ decide (a.1 = n) = true))
        = (fun a => decide (a.1 = n)) := by
      funext a
      by_cases ha : a.1 = n
      · have : a.1 ≠ key := fun hk => h (hk ▸ ha)
        simp [ha, this]
        exact fun hk => h hk.symm
      · simp [ha]
    rw [List.find?_cons_of_neg _ (by simpa using h), List.find?_filter, hfun, if_neg h]

/-- The table the loop of `gst_droidcamsrc_photography_load` leaves: index `n` holds the value
of the last key that contributes to `n`, and otherwise what it held before the loop. -/
theorem load_loop_lookup (file : GKeyFile) (property : String) (n : Int) (keys : List String) :
    ∀ (table : GHashTable) (warnings : List LogLine),
    g_hash_table_lookup
        (gst_droidcamsrc_photography_load_loop file property keys (table, warnings)).1 n
      = match keys.reverse.find? (filed_under file property n) with
        | none => g_hash_table_lookup table n
        | some key => (g_key_file_get_value file property key).toOption := by
  induction keys with
  | nil => intro table warnings; rfl
  | cons key rest ih =>
    intro table warnings
    rw [List.reverse_cons, List.find?_append]
    unfold gst_droidcamsrc_photography_load_loop
    cases hv : g_key_file_get_value file property key with
    | error message =>
      simp only [ih]
      cases hf : rest.reverse.find? (filed_under file property n) with
      | some k => simp
      | none => simp [filed_under, hv, Except.toBool]
    | ok value =>
      simp only [ih]
      cases hf : rest.reverse.find? (filed_under file property n) with
      | some k => simp
      | none =>
        by_cases hk : atoi key = n
        · simp [filed_under, hv, Except.toBool, Except.toOption, lookup_insert, hk]
        · simp [filed_under, hv, Except.toBool, lookup_insert, hk]

/-- The warnings the loop of `gst_droidcamsrc_photography_load` logs: one for each key whose
value is not returned, in order. -/
theorem load_loop_warnings (file : GKeyFile) (property : String) (keys : List String) :
    ∀ (table : GHashTable) (warnings : List LogLine),
    (gst_droidcamsrc_photography_load_loop file property keys (table, warnings)).2
      = warnings ++ keys.filterMap (key_warning file property) := by
  induction keys with
  | nil => intro table warnings; simp [gst_droidcamsrc_photography_load_loop]
  | cons key rest ih =>
    intro table warnings
    unfold gst_droidcamsrc_photography_load_loop
    cases hv : g_key_file_get_value file property key <;>
      simp [ih, key_warning, hv, List.filterMap_cons]

/-- C14, counterexample. For the section that holds only the key `abc` (with a value),
`gst_droidcamsrc_photography_load` returns a table with one entry, filed under index `0`; the
table is not empty. -/
theorem load_key_abc_filed_under_zero :
    atoi "abc" = 0 ∧
    gst_droidcamsrc_photography_load key_file_abc "flash-mode" none = some ([(0, "on")], []) ∧
    gst_droidcamsrc_photography_load key_file_abc "flash-mode" none ≠ some ([], []) := by
  decide

/-- C14, amended. When the local `err` starts as `NULL` and every key of the section fits an
`int`, `gst_droidcamsrc_photography_load` returns a table: a missing section gives the empty
table and one warning; otherwise index `n` of the table holds the value of the last key of the
section that `atoi` files under `n` and whose value is returned (a key that is not an integer
is filed under `0`, or under its leading digits), an index no such key is filed under has no
entry, and one warning is logged for each key whose value is missing, which contributes no
entry. -/
theorem load_files_keys_by_atoi (file : GKeyFile) (property : String)
    (_hfit : ∀ keys, g_key_file_get_keys file property = .ok keys →
      ∀ key ∈ keys, fits_int (atoi key)) :
    (∀ message, g_key_file_get_keys file property = .error message →
      gst_droidcamsrc_photography_load file property none
        = some ([], [LogLine.failed_to_load property message])) ∧
    (∀ keys, g_key_file_get_keys file property = .ok keys →
      ∃ table warnings,
        gst_droidcamsrc_photography_load file property none = some (table, warnings) ∧
        warnings = keys.filterMap (key_warning file property) ∧
        ∀ n, g_hash_table_lookup table n
          = match keys.reverse.find? (filed_under file property n) with
            | none => none
            | some key => (g_key_file_get_value file property key).toOption) := by
  constructor
  · intro message hk
    simp [gst_droidcamsrc_photography_load, hk]
  · intro keys hk
    refine ⟨(gst_droidcamsrc_photography_load_loop file property keys ([], [])).1,
      (gst_droidcamsrc_photography_load_loop file property keys ([], [])).2, ?_, ?_, ?_⟩
    · simp only [gst_droidcamsrc_photography_load, hk]
    · rw [load_loop_warnings]
      simp
    · intro n
      rw [load_loop_lookup]
      rfl

/-- Witness of `load_files_keys_by_atoi` at the section that holds only the key `abc`: index `0`
of the table holds its value. -/
theorem load_files_keys_by_atoi_witness :
    ∃ table warnings,
      gst_droidcamsrc_photography_load key_file_abc "flash-mode" none
        = some (table, warnings) ∧
      warnings = ["abc"].filterMap (key_warning key_file_abc "flash-mode") ∧
      ∀ n, g_hash_table_lookup table n
        = match ["abc"].reverse.find? (filed_under key_file_abc "flash-mode" n) with
          | none => none
          | some key => (g_key_file_get_value key_file_abc "flash-mode" key).toOption :=
  (load_files_keys_by_atoi key_file_abc "flash-mode" (by
    intro keys hk key hmem
    have hkeys : keys = ["abc"] := by
      have h2 : g_key_file_get_keys key_file_abc "flash-mode" = .ok ["abc"] := by rfl
      rw [h2] at hk
      exact (Except.ok.inj hk).symm
    subst hkeys
    simp only [List.mem_singleton] at hmem
    subst hmem
    unfold fits_int
    decide)).2 ["abc"] (by rfl)

/-- C11, counterexample. Two configuration files that load successfully and override index `1`
of `flash-mode` with different values (`gst_droidcamsrc_photography_load` reads `on` from one
and `off` from the other) leave the same settings snapshot after
`gst_droidcamsrc_photography_init`, with flash mode at its factory default. -/
theorem init_same_snapshot_for_different_overrides :
    gst_droidcamsrc_photography_load key_file_flash_on "flash-mode" none
      = some ([(1, "on")], []) ∧
    gst_droidcamsrc_photography_load key_file_flash_off "flash-mode" none
      = some ([(1, "off")], []) ∧
    (gst_droidcamsrc_photography_init gst_1_x_enums blank_src (.ok key_file_flash_on)).photo
      = (gst_droidcamsrc_photography_init gst_1_x_enums blank_src
          (.ok key_file_flash_off)).photo ∧
    ((gst_droidcamsrc_photography_init gst_1_x_enums blank_src
        (.ok key_file_flash_on)).photo.map fun photo => photo.settings.flash_mode)
      = some gst_1_x_enums.GST_PHOTOGRAPHY_FLASH_MODE_AUTO := by
  refine ⟨by decide, by decide, rfl, rfl⟩

/-- C11, amended. Initialisation does not overlay persisted overrides: for every configuration
file that loads successfully, whatever overrides it contains,
`gst_droidcamsrc_photography_init` logs nothing and leaves the factory default in every field
of the settings snapshot. -/
theorem init_ignores_loaded_file (K : GstPhotographyEnums) (src : GstDroidCamSrc)
    (file : GKeyFile) :
    ∃ photo, (gst_droidcamsrc_photography_init K src (.ok file)).photo = some photo ∧
      (gst_droidcamsrc_photography_init K src (.ok file)).warnings = src.warnings ∧
      photo.settings.wb_mode = K.GST_PHOTOGRAPHY_WB_MODE_AUTO ∧
      photo.settings.tone_mode = K.GST_PHOTOGRAPHY_COLOR_TONE_MODE_NORMAL ∧
      photo.settings.scene_mode = K.GST_PHOTOGRAPHY_SCENE_MODE_AUTO ∧
      photo.settings.flash_mode = K.GST_PHOTOGRAPHY_FLASH_MODE_AUTO ∧
      photo.settings.exposure_time = 0 ∧
      photo.settings.aperture = 0 ∧
      photo.settings.ev_compensation = 0 ∧
      photo.settings.iso_speed = 0 ∧
      photo.settings.zoom = 1 ∧
      photo.settings.flicker_mode = K.GST_PHOTOGRAPHY_FLICKER_REDUCTION_OFF ∧
      photo.settings.focus_mode = K.GST_PHOTOGRAPHY_FOCUS_MODE_CONTINUOUS_NORMAL ∧
      photo.settings.noise_reduction = 0 ∧
      photo.settings.exposure_mode = K.GST_PHOTOGRAPHY_EXPOSURE_MODE_AUTO ∧
      photo.settings.color_temperature = 0 ∧
      photo.settings.white_point.length = K.MAX_WHITE_POINT_VALUES ∧
      (∀ x ∈ photo.settings.white_point, x = 0) ∧
      photo.settings.analog_gain = 0 ∧
      photo.settings.lens_focus = 0 ∧
      photo.settings.min_exposure_time = 0 ∧
      photo.settings.max_exposure_time = 0 := by
  refine ⟨_, rfl, rfl, rfl, rfl, rfl, rfl, rfl, rfl, rfl, rfl, rfl, rfl, rfl, rfl, rfl, rfl,
    ?_, ?_, rfl, rfl, rfl, rfl⟩
  · simp [gst_droidcamsrc_photography_init]
  · intro x hx
    simp [gst_droidcamsrc_photography_init] at hx
    exact hx.2

/-! ## Theorems: unchanged selectors and the viewfinder sink -/

/-- C12. `setDevice (d)` with `d` equal to `device()` and `setMode (m)` with `m` equal to
`mode()` return the player as it was, in every state of the player and every environment: no
selector is written, `stop()` and `start()` are not entered, and no notification is emitted
(the trace is the one before the call). -/
theorem setDevice_setMode_same_value_noop (env : Env) (p : VideoPlayer) :
    VideoPlayer.setDevice env p (VideoPlayer.device p) = p ∧
    VideoPlayer.setMode p (VideoPlayer.mode p) = p ∧
    (VideoPlayer.setDevice env p (VideoPlayer.device p)).trace = p.trace ∧
    (VideoPlayer.setMode p (VideoPlayer.mode p)).trace = p.trace := by
  have h1 : VideoPlayer.setDevice env p (VideoPlayer.device p) = p := by
    simp [VideoPlayer.setDevice]
  have h2 : VideoPlayer.setMode p (VideoPlayer.mode p) = p := by
    simp [VideoPlayer.setMode]
  exact ⟨h1, h2, by rw [h1], by rw [h2]⟩

/-- The viewfinder sink in one `start()`: the sink is written into the pipeline at most once,
exactly when none is recorded and the call gets as far as the pipeline, the sink written is the
one recorded afterwards, and a sink recorded before stays. -/
theorem start_bind_spec (env : Env) (p : VideoPlayer) :
    ∃ evs, (VideoPlayer.start env p).2.trace = p.trace ++ evs ∧
      evs.filter is_bind_event
        = (if p.m_sink.isNone && p.m_bin.isSome &&
              (p.m_renderer.isSome || env.renderer_create (p.trace.length + 1))
           then [Event.set_viewfinder_sink (VideoPlayer.start env p).2.m_sink] else []) ∧
      (∀ sink, p.m_sink = some sink → (VideoPlayer.start env p).2.m_sink = some sink) := by
  unfold VideoPlayer.start
  cases hr : p.m_renderer <;> cases hb : p.m_bin <;> cases hs : p.m_sink <;>
    cases hc : env.renderer_create (p.trace.length + 1) <;>
    simp [VideoPlayer.log, VideoPlayer.gst_element_set_state, hr, hb, hs, hc]
  all_goals first
    | (simp [is_bind_event]; done)
    | (split <;>
        (rename_i heq
         simp at heq
         obtain ⟨h1, h2⟩ := heq
         subst h2
         simp [is_bind_event, h1]))

/-- A player keeps its recorded sink with respect to itself. -/
theorem sink_kept_refl (sink : Nat) (p : VideoPlayer) (h : p.m_sink = some sink) :
    sink_kept sink p p :=
  ⟨[], by simp, rfl, h⟩

/-- Keeping the recorded sink composes. -/
theorem sink_kept_trans (sink : Nat) (p p2 p3 : VideoPlayer) (h1 : sink_kept sink p p2)
    (h2 : sink_kept sink p2 p3) : sink_kept sink p p3 := by
  obtain ⟨evs1, ht1, hf1, _⟩ := h1
  obtain ⟨evs2, ht2, hf2, hs2⟩ := h2
  exact ⟨evs1 ++ evs2, by rw [ht2, ht1, List.append_assoc],
    by rw [List.filter_append, hf1, hf2]; rfl, hs2⟩

/-- A `start()` on a player with a recorded sink binds nothing and keeps the sink. -/
theorem sink_kept_start (env : Env) (sink : Nat) (p : VideoPlayer) (h : p.m_sink = some sink) :
    sink_kept sink p (VideoPlayer.start env p).2 := by
  obtain ⟨evs, ht, hf, hk⟩ := start_bind_spec env p
  refine ⟨evs, ht, ?_, hk sink h⟩
  rw [hf]
  simp [h]

/-- A `stop()` on a player with a recorded sink binds nothing and keeps the sink. -/
theorem sink_kept_stop (env : Env) (sink : Nat) (p : VideoPlayer) (h : p.m_sink = some sink) :
    sink_kept sink p (VideoPlayer.stop env p).2 := by
  unfold sink_kept
  cases hb : p.m_bin with
  | none =>
    rw [stop_of_no_bin env p hb]
    exact ⟨_, rfl, by simp [is_bind_event], h⟩
  | some bin =>
    by_cases hret : env.set_state (p.trace.length + 1) = .GST_STATE_CHANGE_FAILURE
    · rw [stop_of_failure env p bin hb hret]
      exact ⟨_, rfl, by simp [is_bind_event], h⟩
    · rw [stop_of_no_failure env p bin hb hret]
      refine ⟨_, by simp only [List.append_assoc]; rfl, ?_, h⟩
      cases p.m_renderer <;> simp [is_bind_event]

/-- A `setDevice()` on a player with a recorded sink binds nothing and keeps the sink. -/
theorem sink_kept_setDevice (env : Env) (sink : Nat) (p : VideoPlayer) (device : Int)
    (h : p.m_sink = some sink) : sink_kept sink p (VideoPlayer.setDevice env p device) := by
  unfold VideoPlayer.setDevice
  by_cases hd : VideoPlayer.device p = device
  · simp only [hd, if_true]
    exact sink_kept_refl sink p h
  · simp only [hd, if_false]
    obtain ⟨hrt, _, _, hrs⟩ := running_frame env p
    have k1 : sink_kept sink p (VideoPlayer.running env p).2 :=
      ⟨[], by simp [hrt], rfl, by rw [hrs, h]⟩
    generalize VideoPlayer.running env p = rp at k1
    obtain ⟨r, p1⟩ := rp
    simp only at k1 ⊢
    have hlog : ∀ (q : VideoPlayer) (e : Event), is_bind_event e = false →
        q.m_sink = some sink → sink_kept sink q (q.log e) := by
      intro q e he hq
      exact ⟨[e], rfl, by simp [he], hq⟩
    have hset : ∀ (q : VideoPlayer), q.m_sink = some sink →
        sink_kept sink q (VideoPlayer.g_object_set_camera_device q device) := by
      intro q hq
      unfold VideoPlayer.g_object_set_camera_device
      cases q.m_src with
      | none => exact sink_kept_refl sink q hq
      | some src => exact ⟨[Event.set_camera_device device], rfl, by simp [is_bind_event], hq⟩
    have hs1 : p1.m_sink = some sink := k1.choose_spec.2.2
    cases r with
    | false =>
      simp only [Bool.false_eq_true, if_false]
      have k2 := hset p1 hs1
      have k3 := hlog _ Event.deviceChanged rfl k2.choose_spec.2.2
      exact sink_kept_trans sink _ _ _ k1 (sink_kept_trans sink _ _ _ k2 k3)
    | true =>
      simp only [if_true]
      have k2 := sink_kept_stop env sink p1 hs1
      have k3 := hset _ k2.choose_spec.2.2
      have k4 := sink_kept_start env sink _ k3.choose_spec.2.2
      have k5 := hlog _ Event.deviceChanged rfl k4.choose_spec.2.2
      exact sink_kept_trans sink _ _ _ k1 (sink_kept_trans sink _ _ _ k2
        (sink_kept_trans sink _ _ _ k3 (sink_kept_trans sink _ _ _ k4 k5)))

/-- A sequence of calls on a player with a recorded sink binds nothing and keeps the sink. -/
theorem sink_kept_run (env : Env) (sink : Nat) (calls : List PlayerCall) :
    ∀ p : VideoPlayer, p.m_sink = some sink → sink_kept sink p (VideoPlayer.run env p calls) := by
  induction calls with
  | nil => intro p h; exact sink_kept_refl sink p h
  | cons c cs ih =>
    intro p h
    have k1 : sink_kept sink p (VideoPlayer.call env p c) := by
      cases c with
      | start => exact sink_kept_start env sink p h
      | stop => exact sink_kept_stop env sink p h
      | setDevice device => exact sink_kept_setDevice env sink p device h
    exact sink_kept_trans sink _ _ _ k1 (ih _ k1.choose_spec.2.2)

/-- C13, counterexample. On a player without pipeline element no sink has been recorded, and
`start()` (which creates the renderer and returns `false` at "no playbin") does not write the
viewfinder sink of the pipeline. -/
theorem start_without_pipeline_binds_no_sink :
    VideoPlayer.new.m_sink = none ∧
    (VideoPlayer.start env_ok VideoPlayer.new).1 = false ∧
    (VideoPlayer.start env_ok VideoPlayer.new).2.trace
      = [Event.start_called, Event.renderer_create true, Event.renderer_connect,
          Event.renderer_resize, Event.qmlInfo "no playbin"] ∧
    (VideoPlayer.start env_ok VideoPlayer.new).2.trace.filter is_bind_event = [] := by
  decide

/-- C13, amended. In every state of the player and every environment, a `start()` writes the
viewfinder sink of the pipeline at most once, and it does so exactly when no sink has been
recorded yet and the call gets as far as the pipeline (the pipeline element exists and a
renderer exists or is created); the sink written is the one recorded afterwards. Once a sink
has been recorded, over every sequence of `start()`, `stop()` and `setDevice()` calls that
follows no call writes the viewfinder sink again and the recorded sink stays. -/
theorem viewfinder_sink_bound_once_recorded (env : Env) (p : VideoPlayer)
    (calls : List PlayerCall) :
    (∃ evs, (VideoPlayer.start env p).2.trace = p.trace ++ evs ∧
      evs.filter is_bind_event
        = (if p.m_sink.isNone && p.m_bin.isSome &&
              (p.m_renderer.isSome || env.renderer_create (p.trace.length + 1))
           then [Event.set_viewfinder_sink (VideoPlayer.start env p).2.m_sink] else [])) ∧
    (∀ sink, p.m_sink = some sink →
      ∃ evs, (VideoPlayer.run env p calls).trace = p.trace ++ evs ∧
        evs.filter is_bind_event = [] ∧
        (VideoPlayer.run env p calls).m_sink = some sink) := by
  constructor
  · obtain ⟨evs, ht, hf, _⟩ := start_bind_spec env p
    exact ⟨evs, ht, hf⟩
  · intro sink h
    exact sink_kept_run env sink calls p h

/-- Witness of `viewfinder_sink_bound_once_recorded`: the running player, whose sink `7` is
recorded, through a stop, a start, a change of device and another start. -/
theorem viewfinder_sink_bound_once_recorded_witness :
    ∃ evs, (VideoPlayer.run env_ok player_running
        [.stop, .start, .setDevice 1, .start]).trace = player_running.trace ++ evs ∧
      evs.filter is_bind_event = [] ∧
      (VideoPlayer.run env_ok player_running [.stop, .start, .setDevice 1, .start]).m_sink
        = some 7 :=
  (viewfinder_sink_bound_once_recorded env_ok player_running
    [.stop, .start, .setDevice 1, .start]).2 7 (by decide)

end GstDroid
